import Mathlib

/-!
# Verification of the multi-agent orchestration core (`multi_agent.py`)

A shallow embedding of the multi-agent incident-analysis engine: the five
response parsers (`parse_root_cause`, `parse_impact`, `parse_actions`,
`parse_knowledge`, `parse_consistency_v2`), the shared-context assembler, the
prompt builders, the per-role executor `_run_agent`, and the orchestrator
`run_multi_agent_v2`.

Modelling conventions:
* Strings are processed as `List Char`; Python's `re` patterns used by the
  source are hand-compiled to deterministic scanning functions.  Each such
  function documents the pattern it implements, including the backtracking
  behaviour of the original pattern (verified against CPython's `re`).
* Character classes are modelled at ASCII scope (`\s`, `[A-Z]` + IGNORECASE,
  `str.strip`, `str.lower`); all patterns in the source are ASCII apart from
  the literal arrow/bullet characters, which are matched exactly (no case
  folding), as in the source where those patterns carry no IGNORECASE flag.
* Python floats are modelled as exact rationals (`ℚ`); every numeric literal
  compared by the claims is exactly representable on both sides.
* Wall-clock timing is not modelled: elapsed times are `0`.
* `parse_knowledge` can raise (`float` applied to a non-scalar JSON value),
  so it returns `Except PyErr _`; the four total parsers are wrapped into the
  same shape for the executor.
-/

set_option maxRecDepth 100000

namespace MultiAgent

/-! ## Character and list utilities -/

/-- Python `\s` / `str.strip()` whitespace at ASCII scope. -/
def pyWs (c : Char) : Bool :=
  c = ' ' ∨ c = '\t' ∨ c = '\n' ∨ c = '\r' ∨ c = '\x0b' ∨ c = '\x0c'

/-- ASCII letter (what `[A-Z]` matches under `re.IGNORECASE`). -/
def asciiLetter (c : Char) : Bool := ('A' ≤ c ∧ c ≤ 'Z') ∨ ('a' ≤ c ∧ c ≤ 'z')

/-- ASCII decimal digit (`\d`). -/
def asciiDigit (c : Char) : Bool := '0' ≤ c ∧ c ≤ '9'

/-- `str.strip()` (ASCII whitespace). -/
def strip (l : List Char) : List Char :=
  ((l.dropWhile pyWs).reverse.dropWhile pyWs).reverse

/-- Lower-case a character list (ASCII, as `Char.toLower`). -/
def lowerL (l : List Char) : List Char := l.map Char.toLower

/-- Upper-case a character list (ASCII, as `Char.toUpper`). -/
def upperL (l : List Char) : List Char := l.map Char.toUpper

/-- Case-insensitive "starts with": first argument is the text, second the
pattern (ASCII case folding, as `re.IGNORECASE` over ASCII patterns). -/
def ciStartsWith : List Char → List Char → Bool
  | _, [] => true
  | [], _ :: _ => false
  | h :: hs, p :: ps => (Char.toLower h = Char.toLower p) && ciStartsWith hs ps

/-- Exact "starts with". -/
def exStartsWith : List Char → List Char → Bool
  | _, [] => true
  | [], _ :: _ => false
  | h :: hs, p :: ps => (h = p) && exStartsWith hs ps

/-- Exact substring containment (both arguments already case-normalised by
callers that need case-insensitivity). -/
def hasSub : List Char → List Char → Bool
  | [], pat => pat = []
  | h :: t, pat => exStartsWith (h :: t) pat || hasSub t pat

/-- `re.search` scanning loop: try the (case-insensitive, ASCII) anchor
`pat` at each position left to right; at a hit, run `tail` on the text after
the anchor; a `tail` failure resumes the scan at the next position, exactly
as the `re` engine does when the rest of the pattern fails to match. -/
def reSearch (pat : List Char) (tail : List Char → Option α) : List Char → Option α
  | [] => none
  | h :: t =>
    if ciStartsWith (h :: t) pat then
      match tail ((h :: t).drop pat.length) with
      | some r => some r
      | none => reSearch pat tail t
    else reSearch pat tail t

/-- Tail for patterns of the shape `…:\s*(.+)` (equivalently `([^\n]+)`):
greedy whitespace skip, then at least one character of the current line is
captured up to (excluding) the next newline.  When only whitespace remains,
the engine backtracks into the whitespace run; the capture is then pure
whitespace, which every caller strips — modelled as `some []`.  When nothing
but newlines (or nothing) remains the pattern fails at this anchor. -/
def lineTail (rest : List Char) : Option (List Char) :=
  let body := rest.dropWhile pyWs
  match body with
  | _ :: _ => some (body.takeWhile (· ≠ '\n'))
  | [] =>
    let ws := rest.takeWhile pyWs
    if ws.any (· ≠ '\n') then some [] else none

/-- Capture for a non-greedy `(.*?)`/`(.+?)` with `re.DOTALL`: consume
characters until the boundary look-ahead `bd` holds at the remaining suffix
(end of text always counts — `\Z`; patterns using `$` instead bake the
"just before a final newline" case into `bd`). -/
def captureUpto (bd : List Char → Bool) : List Char → List Char
  | [] => []
  | c :: rest => if bd (c :: rest) then [] else c :: captureUpto bd rest

/-- Tail for `…\s*(.+?)(?=bd|…)` under DOTALL: greedy whitespace skip, one
mandatory character, then capture to the boundary.  A whitespace-only
remainder makes the engine backtrack into the run and capture whitespace
(stripped by all callers — modelled `some []`). -/
def blockTail1 (bd : List Char → Bool) (rest : List Char) : Option (List Char) :=
  let body := rest.dropWhile pyWs
  match body with
  | c :: more => some (c :: captureUpto bd more)
  | [] => if rest = [] then none else some []

/-- Tail for `…\s*(.*?)(?=bd|…)` under DOTALL: like `blockTail1` but the
capture may be empty, so the match never fails. -/
def blockTail0 (bd : List Char → Bool) (rest : List Char) : Option (List Char) :=
  some (captureUpto bd (rest.dropWhile pyWs))

/-- Tail for `…\s*(.+)` with DOTALL (`parse_consistency_v2`'s
`RECOMMENDATION:`): capture everything to the end of the text, at least one
character (whitespace-only remainders capture whitespace, stripped by the
caller). -/
def restTail (rest : List Char) : Option (List Char) :=
  match rest.dropWhile pyWs with
  | [] => if rest = [] then none else some []
  | body => some body

/-- Tail for `CONFIDENCE:\s*(\d+)`: whitespace skip then a maximal non-empty
digit run. -/
def natNumTail (rest : List Char) : Option (List Char) :=
  let ds := (rest.dropWhile pyWs).takeWhile asciiDigit
  if ds = [] then none else some ds

/-- Tail for `CONFIDENCE:\s*([\d.]+)` (Knowledge fallback): whitespace skip
then a maximal non-empty run of digits and dots. -/
def confNumTail (rest : List Char) : Option (List Char) :=
  let ds := (rest.dropWhile pyWs).takeWhile (fun c => asciiDigit c ∨ c = '.')
  if ds = [] then none else some ds

/-- Decimal digit run to a natural number. -/
def digitsToNat (l : List Char) : Nat :=
  l.foldl (fun a c => a * 10 + (c.toNat - 48)) 0

/-! ## `parse_root_cause` -/

/-- Output schema of the Root-Cause role (`RootCauseOutput` dataclass).
`confidence` is produced by `min(int(r'\d+' match), 100)`, hence a natural
number. -/
structure RootCauseOutput where
  trigger : String := ""
  causal_chain : List String := []
  confidence : Nat := 0
  reasoning : String := ""
  identified_system : String := ""
deriving Repr, DecidableEq, Inhabited

/-- Splitter for `re.split(r'\s*(?:‚Üí|->|=>)\s*', raw)`: the first
alternative is the literal three-character sequence found in the source file
(`U+201A U+00DC U+00ED`).  The `\s*` padding around the arrows only widens
the removed separators; since the caller strips every piece and drops empty
ones, splitting at the bare arrow tokens yields the same final list. -/
def splitArrowsGo : List Char → List Char → List (List Char)
  | [], acc => [acc.reverse]
  | '‚' :: 'Ü' :: 'í' :: rest, acc => acc.reverse :: splitArrowsGo rest []
  | '-' :: '>' :: rest, acc => acc.reverse :: splitArrowsGo rest []
  | '=' :: '>' :: rest, acc => acc.reverse :: splitArrowsGo rest []
  | c :: rest, acc => splitArrowsGo rest (c :: acc)

/-- Boundary of `REASONING:\s*(.*?)(?=\n[A-Z]+:|$)` (IGNORECASE·DOTALL):
a newline followed by a non-empty ASCII-letter run and a colon; the `$`
alternative ("just before a final newline") is the `['\n']` case. -/
def bdReasoning (s : List Char) : Bool :=
  match s with
  | '\n' :: rest =>
    let run := rest.takeWhile asciiLetter
    (!run.isEmpty) && (match rest.drop run.length with | ':' :: _ => true | _ => false)
  | _ => false

/-- `parse_root_cause` (multi_agent.py lines 97–126). -/
def parse_root_cause (text : String) : RootCauseOutput :=
  if text = "" then {} else
  let t := text.data
  let trigger :=
    match reSearch "TRIGGER:".data lineTail t with
    | some cap => String.mk (strip cap)
    | none => ""
  let chain :=
    match reSearch "CHAIN:".data lineTail t with
    | some cap =>
      (((splitArrowsGo (strip cap) []).map strip).filter (· ≠ [])).map String.mk
    | none => []
  let conf :=
    match reSearch "CONFIDENCE:".data natNumTail t with
    | some ds => min (digitsToNat ds) 100
    | none => 0
  let reasoning :=
    match reSearch "REASONING:".data (blockTail0 (fun s => bdReasoning s ∨ s = ['\n'])) t with
    | some cap => String.mk (strip cap)
    | none => ""
  let system :=
    match reSearch "SYSTEM:".data lineTail t with
    | some cap => String.mk (strip cap)
    | none => ""
  { trigger := trigger, causal_chain := chain, confidence := conf,
    reasoning := reasoning, identified_system := system }

example : parse_root_cause "" = {} := by rfl

example :
    parse_root_cause "SYSTEM: Server_A\nTRIGGER: pool exhausted\nCHAIN: a ‚Üí b -> c\nCONFIDENCE: 350\nREASONING: because\nEND: x" =
    { trigger := "pool exhausted", causal_chain := ["a", "b", "c"],
      confidence := 100, reasoning := "because", identified_system := "Server_A" } := by
  decide

/-! ## `parse_impact` -/

/-- Output schema of the Impact role (`ImpactOutput` dataclass). -/
structure ImpactOutput where
  affected_systems : List String := []
  user_impact : String := ""
  estimated_duration : String := ""
  severity_justification : String := ""
  financial_impact : String := "Unknown"
  primary_system : String := ""
deriving Repr, DecidableEq, Inhabited

/-- `re.sub(r'\$+', '$', text)`: collapse every run of dollar signs to a
single one (the flag records whether the previous character was `$`). -/
def collapseDollarsGo : Bool → List Char → List Char
  | _, [] => []
  | prev, c :: rest =>
    if c = '$' then
      if prev then collapseDollarsGo true rest
      else '$' :: collapseDollarsGo true rest
    else c :: collapseDollarsGo false rest

/-- `re.sub(r'\$+', '$', text)`. -/
def collapseDollars (l : List Char) : List Char := collapseDollarsGo false l

/-- ASCII lowercase letter (`[a-z]`, no IGNORECASE on the LaTeX patterns). -/
def lowerAscii (c : Char) : Bool := 'a' ≤ c ∧ c ≤ 'z'

/-- `re.sub(r'\\[a-z]+\{', '', text)`: remove a backslash followed by a
non-empty lowercase-letter run and an opening brace.  (`[a-z]+` is greedy;
shorter runs end at a lowercase letter, never at `\x7b`, so backtracking
cannot produce a different match.)  Fuel-structured so the kernel can
evaluate it; the initial fuel covers the whole list. -/
def stripLatexGo : Nat → List Char → List Char
  | 0, l => l
  | _ + 1, [] => []
  | fuel + 1, '\\' :: rest =>
    let run := rest.takeWhile lowerAscii
    if (!run.isEmpty) &&
       (match rest.drop run.length with | '\x7b' :: _ => true | _ => false)
    then stripLatexGo fuel (rest.drop (run.length + 1))
    else '\\' :: stripLatexGo fuel rest
  | fuel + 1, c :: rest => c :: stripLatexGo fuel rest

/-- `re.sub(r'\\[a-z]+\{', '', text)`. -/
def stripLatexCmds (l : List Char) : List Char := stripLatexGo (l.length + 1) l

/-- `re.sub(r'\\[a-z]+', '', line)` (financial-impact clean-up). -/
def stripLatex2Go : Nat → List Char → List Char
  | 0, l => l
  | _ + 1, [] => []
  | fuel + 1, '\\' :: rest =>
    let run := rest.takeWhile lowerAscii
    if !run.isEmpty then stripLatex2Go fuel (rest.drop run.length)
    else '\\' :: stripLatex2Go fuel rest
  | fuel + 1, c :: rest => c :: stripLatex2Go fuel rest

/-- `re.sub(r'\\[a-z]+', '', line)`. -/
def stripLatexCmds2 (l : List Char) : List Char := stripLatex2Go (l.length + 1) l

/-- The LaTeX clean-up applied by `parse_impact` before any field
extraction: collapse `$` runs, remove `\cmd\x7b` command openers, drop all
closing braces. -/
def impactCleanup (l : List Char) : List Char :=
  (stripLatexCmds (collapseDollars l)).filter (· ≠ '\x7d')

/-- Boundary of the impact block patterns `…\s*(.+?)(?=\n[A-Z]|\Z)`
(IGNORECASE·DOTALL): a newline followed by an ASCII letter of either case;
`\Z` (absolute end) is `captureUpto`'s base case. -/
def bdUpper (s : List Char) : Bool :=
  match s with
  | '\n' :: c :: _ => asciiLetter c
  | _ => false

/-- `str.split` / `re.split` on single separator characters satisfying
`sepP` (used for `re.split(r'[,\n]', …)` and `str.split('\n')`). -/
def splitAnyGo (sepP : Char → Bool) : List Char → List Char → List (List Char)
  | [], acc => [acc.reverse]
  | c :: rest, acc =>
    if sepP c then acc.reverse :: splitAnyGo sepP rest []
    else splitAnyGo sepP rest (c :: acc)

/-- Characters before the first occurrence of the (non-empty) separator
`s0 :: srest`; the whole list when the separator does not occur.  Models
`raw.split(sep)[0] if sep in raw else raw`. -/
def uptoSub (s0 : Char) (srest : List Char) : List Char → List Char
  | [] => []
  | c :: rest =>
    if (c :: rest).take (srest.length + 1) = s0 :: srest then []
    else c :: uptoSub s0 srest rest

/-- `re.sub(r'\s+', ' ', line)`: collapse whitespace runs to single spaces. -/
def collapseWs : List Char → List Char
  | [] => []
  | [c] => if pyWs c then [' '] else [c]
  | c :: d :: rest =>
    if pyWs c ∧ pyWs d then collapseWs (d :: rest)
    else if pyWs c then ' ' :: collapseWs (d :: rest)
    else c :: collapseWs (d :: rest)

/-- `re.sub(r'\s+', ' ', line.strip().lower())` — the user-impact
deduplication key. -/
def normalizeLine (l : List Char) : List Char := collapseWs (lowerL (strip l))

/-- The user-impact dedup loop: keep the first line of each normalisation
class among the first five lines, recording stripped lines. -/
def dedupGo : List (List Char) → List (List Char) → List (List Char)
  | [], _ => []
  | l :: ls, seen =>
    let n := normalizeLine l
    if n ≠ [] ∧ n ∉ seen then strip l :: dedupGo ls (n :: seen)
    else dedupGo ls seen

/-- `'\n'.join` on character lists. -/
def joinNl : List (List Char) → List Char
  | [] => []
  | [l] => l
  | l :: ls => l ++ '\n' :: joinNl ls

/-- `' '.join` on character lists. -/
def joinSp : List (List Char) → List Char
  | [] => []
  | [l] => l
  | l :: ls => l ++ ' ' :: joinSp ls

/-- The bullet characters of `lstrip('-‚Ä¢*')` — the literal characters
present in the source file. -/
def bulletChar (c : Char) : Bool :=
  c = '-' ∨ c = '‚' ∨ c = 'Ä' ∨ c = '¢' ∨ c = '*'

/-! ### A small backtracking matcher for the financial-estimate pattern

`re.search(r'\$[\d,]+k?\s*-?\s*\$?[\d,]+[kM]?', …, re.IGNORECASE)` needs
genuine backtracking (e.g. `"$100"` matches by splitting the digit run), so
this fragment is modelled by a token-list matcher with Python's preference
order: greedy quantifiers try longest first, optionals try present first,
scan positions left to right. -/

/-- One token of a linear regular pattern. -/
inductive RTok where
  | one : (Char → Bool) → RTok
  | opt : (Char → Bool) → RTok
  | many1 : (Char → Bool) → RTok
  | many0 : (Char → Bool) → RTok

/-- Try `f (lo + n - 1)`, …, `f lo` in order (`n` candidates, descending). -/
def descendGo (f : Nat → Option Nat) (lo : Nat) : Nat → Option Nat
  | 0 => none
  | n + 1 =>
    match f (lo + n) with
    | some r => some r
    | none => descendGo f lo n

/-- Try `f hi`, `f (hi-1)`, …, `f lo` in order. -/
def descend (f : Nat → Option Nat) (hi lo : Nat) : Option Nat :=
  if hi < lo then none else descendGo f lo (hi - lo + 1)

/-- Length of the first match of `ts` anchored at the head of `s` (with
Python backtracking preference), if any. -/
def rmatch : List RTok → List Char → Option Nat
  | [], _ => some 0
  | .one p :: ts, s =>
    match s with
    | c :: rest => if p c then (rmatch ts rest).map (· + 1) else none
    | [] => none
  | .opt p :: ts, s =>
    (match s with
     | c :: rest => if p c then (rmatch ts rest).map (· + 1) else none
     | [] => none).orElse (fun _ => rmatch ts s)
  | .many1 p :: ts, s =>
    descend (fun k => (rmatch ts (s.drop k)).map (· + k)) (s.takeWhile p).length 1
  | .many0 p :: ts, s =>
    descend (fun k => (rmatch ts (s.drop k)).map (· + k)) (s.takeWhile p).length 0

/-- `re.search` for a token-list pattern: leftmost match, returning the
matched span (`group(0)`). -/
def rsearch (ts : List RTok) : List Char → Option (List Char)
  | [] => (rmatch ts []).map (fun _ => [])
  | c :: rest =>
    match rmatch ts (c :: rest) with
    | some n => some ((c :: rest).take n)
    | none => rsearch ts rest

/-- `\$[\d,]+k?\s*-?\s*\$?[\d,]+[kM]?` with IGNORECASE. -/
def finEstimateToks : List RTok :=
  [ .one (· = '$'),
    .many1 (fun c => asciiDigit c ∨ c = ','),
    .opt (fun c => Char.toLower c = 'k'),
    .many0 pyWs,
    .opt (· = '-'),
    .many0 pyWs,
    .opt (· = '$'),
    .many1 (fun c => asciiDigit c ∨ c = ','),
    .opt (fun c => Char.toLower c = 'k' ∨ Char.toLower c = 'm') ]

/-- `parse_impact` (multi_agent.py lines 129–199). -/
def parse_impact (text : String) : ImpactOutput :=
  if text = "" then {} else
  let t := impactCleanup text.data
  let affected :=
    match reSearch "AFFECTED SYSTEMS:".data (blockTail1 bdUpper) t with
    | some cap =>
      let parts := splitAnyGo (fun c => c = ',' ∨ c = '\n') (strip cap) []
      ((parts.filter (fun p => strip p ≠ [])).map
        (fun p => String.mk (strip ((strip p).dropWhile bulletChar))))
    | none => []
  let user_impact :=
    match reSearch "USER IMPACT:".data (blockTail1 bdUpper) t with
    | some cap =>
      let raw := strip cap
      let firstPart := uptoSub '\n' ['\n'] raw
      let lines := splitAnyGo (· = '\n') firstPart []
      String.mk (joinNl (dedupGo (lines.take 5) []))
    | none => ""
  let duration :=
    match reSearch "ESTIMATED DURATION:".data (blockTail1 bdUpper) t with
    | some cap => String.mk (strip ((strip cap).takeWhile (· ≠ '\n')))
    | none => ""
  let severity :=
    match reSearch "SEVERITY JUSTIFICATION:".data (blockTail1 bdUpper) t with
    | some cap =>
      let raw := strip cap
      let firstPara := uptoSub '\n' ['\n'] raw
      String.mk (joinSp ((splitAnyGo (· = '\n') firstPara []).take 3))
    | none => ""
  let financial :=
    match reSearch "FINANCIAL IMPACT:".data (blockTail1 bdUpper) t with
    | some cap =>
      let raw := strip cap
      let firstLine := strip (raw.takeWhile (· ≠ '\n'))
      let firstLine :=
        if hasSub (upperL firstLine) "CALCULATION WORK".data ∨
           hasSub (upperL firstLine) "FINAL ESTIMATION".data then
          match rsearch finEstimateToks raw with
          | some span => span
          | none => firstLine
        else firstLine
      String.mk ((stripLatexCmds2 firstLine).filter
        (fun c => ¬ (c = '\x7b' ∨ c = '\x7d')))
    | none => "Unknown"
  let primary :=
    match reSearch "PRIMARY SYSTEM:".data lineTail t with
    | some cap => String.mk (strip cap)
    | none =>
      match affected with
      | p :: _ => p
      | [] => ""
  { affected_systems := affected, user_impact := user_impact,
    estimated_duration := duration, severity_justification := severity,
    financial_impact := financial, primary_system := primary }

example : parse_impact "" = {} := by decide

example :
    parse_impact "AFFECTED SYSTEMS: Server_A, Server_B\nUSER IMPACT: 500 users blocked\nESTIMATED DURATION: 2 hours\nFINANCIAL IMPACT: $50k-$100k\nSEVERITY JUSTIFICATION: core database down" =
    { affected_systems := ["Server_A", "Server_B"],
      user_impact := "500 users blocked",
      estimated_duration := "2 hours",
      severity_justification := "core database down",
      financial_impact := "$50k-$100k",
      primary_system := "Server_A" } := by decide

/-! ## `_extract_numbered_or_bulleted_list` and its placeholder filter -/

/-- Remainder after the first exact occurrence of `pat`, if any. -/
def dropAfterSub : List Char → List Char → Option (List Char)
  | [], pat => if pat = [] then some [] else none
  | h :: t, pat =>
    if exStartsWith (h :: t) pat then some ((h :: t).drop pat.length)
    else dropAfterSub t pat

/-- `w₁ … wₙ` occur in order (models `.*w₁.*w₂.*…`). -/
def seqContains : List Char → List (List Char) → Bool
  | _, [] => true
  | l, w :: ws =>
    match dropAfterSub l w with
    | some r => seqContains r ws
    | none => false

/-- `^\[.*w₁.*(…).*\]$`: a bracketed line whose interior contains the given
words in order (input already lower-cased). -/
def phBracket (l : List Char) (words : List (List Char)) : Bool :=
  match l with
  | '[' :: rest =>
    match rest.reverse with
    | ']' :: midRev => seqContains midRev.reverse words
    | _ => false
  | _ => false

/-- `none\s+found` occurs somewhere (models `.*none\s+found.*` under
`re.match`, input already lower-cased). -/
def hasNoneWsFound : List Char → Bool
  | [] => false
  | h :: t =>
    (exStartsWith (h :: t) "none".data &&
      (let r := (h :: t).drop 4
       let ws := r.takeWhile pyWs
       (!ws.isEmpty) && exStartsWith (r.drop ws.length) "found".data))
    || hasNoneWsFound t

/-- `^none\s+found$` (input already lower-cased). -/
def noneWsFoundExact (l : List Char) : Bool :=
  exStartsWith l "none".data &&
    (let r := l.drop 4
     let ws := r.takeWhile pyWs
     (!ws.isEmpty) && r.drop ws.length = "found".data)

/-- `^\s*-?\s*none\s*$` (input already lower-cased). -/
def phDashNone (l : List Char) : Bool :=
  let r := l.dropWhile pyWs
  let r := match r with | '-' :: m => m | _ => r
  let r := r.dropWhile pyWs
  exStartsWith r "none".data && (r.drop 4).all pyWs

/-- The placeholder filter of `_extract_numbered_or_bulleted_list`: one
`re.match(pattern, cleaned, re.IGNORECASE)` per pattern in
`placeholder_patterns` (multi_agent.py lines 243–253). -/
def isPlaceholder (cleaned : List Char) : Bool :=
  let lc := lowerL cleaned
  phBracket lc ["empty".data] ||
  phBracket lc ["none".data, "found".data] ||
  phBracket lc ["if".data, "none".data] ||
  lc = "none".data ||
  noneWsFoundExact lc ||
  lc = "n/a".data ||
  lc = "empty".data ||
  hasNoneWsFound lc ||
  phDashNone lc

/-- `str.strip('*')`. -/
def stripStars (l : List Char) : List Char :=
  ((l.dropWhile (· = '*')).reverse.dropWhile (· = '*')).reverse

/-- `\*{0,2}` (greedy): drop up to two leading stars. -/
def dropUpTo2Stars : List Char → List Char
  | '*' :: '*' :: r => r
  | '*' :: r => r
  | r => r

/-- The post-label part of the extraction pattern:
`\*{0,2}\s*(?:\([^)]+\))?\s*:?` followed by the outer `\s*`.  All groups are
optional and the capture that follows cannot fail (its boundary includes
end-of-text), so the greedy left-to-right skip is exact. -/
def starParenColonSkip (rest : List Char) : List Char :=
  let r1 := dropUpTo2Stars rest
  let r2 := r1.dropWhile pyWs
  let r3 :=
    match r2 with
    | '(' :: more =>
      let inner := more.takeWhile (· ≠ ')')
      if (!inner.isEmpty) && !(more.drop inner.length).isEmpty
      then more.drop (inner.length + 1)
      else r2
    | _ => r2
  let r4 := r3.dropWhile pyWs
  let r5 := match r4 with | ':' :: m => m | _ => r4
  r5.dropWhile pyWs

/-- Boundary of the extraction pattern: `\*{0,2}OTHER\*{0,2}\s*(?:…)?\s*:?`
for any other label — everything after the label text is optional, so the
test reduces to "(up to two stars then) another label starts here". -/
def labelBoundary (others : List (List Char)) (s : List Char) : Bool :=
  others.any (fun lbl => ciStartsWith (dropUpTo2Stars s) lbl)

/-- Per-line clean-up of `_extract_numbered_or_bulleted_list`:
`re.sub(r'^\s*\*{0,2}', '', line)`, then `re.sub(r'\*{0,2}\s*$', '', ·)`
(leftmost suffix of at most two stars and trailing whitespace), then
`re.sub(r'^[\s]*(?:\d+[\.\)]\s*|[-‚Ä¢*]\s*)', '', ·).strip()`. -/
def cleanLine (line : List Char) : List Char :=
  let a := dropUpTo2Stars (line.dropWhile pyWs)
  let rev := a.reverse
  let afterWs := rev.dropWhile pyWs
  let stars := (afterWs.takeWhile (· = '*')).take 2
  let b := (afterWs.drop stars.length).reverse
  let c0 := b.dropWhile pyWs
  let digs := c0.takeWhile asciiDigit
  let c1 :=
    if (!digs.isEmpty) &&
       (match c0.drop digs.length with
        | '.' :: _ => true | ')' :: _ => true | _ => false)
    then (c0.drop (digs.length + 1)).dropWhile pyWs
    else
      match c0 with
      | ch :: r => if bulletChar ch then r.dropWhile pyWs else c0
      | [] => c0
  strip c1

/-- Line loop of `_extract_numbered_or_bulleted_list`: clean each line, skip
empties, skip placeholders. -/
def extractItems (block : List Char) : List (List Char) :=
  ((splitAnyGo (· = '\n') block []).map cleanLine).filter
    (fun cl => (!cl.isEmpty) && !isPlaceholder cl)

/-- The default `all_labels` of `_extract_numbered_or_bulleted_list`. -/
def actionLabels : List String :=
  ["IMMEDIATE", "SHORT-TERM", "PREVENTIVE", "ROLLBACK PLAN", "TARGET SYSTEM"]

/-- `_extract_numbered_or_bulleted_list` (multi_agent.py lines 202–272). -/
def _extract_numbered_or_bulleted_list (text label : String)
    (allLabels : List String := actionLabels) : List String :=
  let cleanLabel := stripStars label.data
  let others :=
    ((allLabels.map (·.data)).filter (fun l => stripStars l ≠ cleanLabel)).map stripStars
  match reSearch cleanLabel
      (fun rest =>
        some (captureUpto (fun s => labelBoundary others s ∨ s = ['\n'])
          (starParenColonSkip rest))) text.data with
  | some cap => (extractItems (strip cap)).map String.mk
  | none => []

/-! ## `parse_actions` -/

/-- Output schema of the Actions role (`ActionsOutput` dataclass). -/
structure ActionsOutput where
  immediate : List String := []
  short_term : List String := []
  preventive : List String := []
  rollback_plan : String := ""
  target_system : String := ""
deriving Repr, DecidableEq, Inhabited

/-- Boundary of the rollback pattern,
`\n\*{0,2}[A-Z][A-Z\s]+\*{0,2}\s*:?` (IGNORECASE): a newline, up to two
stars, a letter, and at least one more letter-or-whitespace character
(everything further is optional). -/
def bdRollback (s : List Char) : Bool :=
  match s with
  | '\n' :: rest =>
    match dropUpTo2Stars rest with
    | c :: d :: _ => asciiLetter c && (asciiLetter d || pyWs d)
    | _ => false
  | _ => false

/-- Tail of `\*{0,2}ROLLBACK\s*PLAN\*{0,2}\s*:?\s*(.*?)(?=…|$)` after the
`ROLLBACK` anchor. -/
def rollbackTail (rest : List Char) : Option (List Char) :=
  let r1 := rest.dropWhile pyWs
  if ciStartsWith r1 "PLAN".data then
    let r2 := dropUpTo2Stars (r1.drop 4)
    let r3 := r2.dropWhile pyWs
    let r4 := match r3 with | ':' :: m => m | _ => r3
    some (captureUpto (fun s => bdRollback s ∨ s = ['\n']) (r4.dropWhile pyWs))
  else none

/-- Tail of `\*{0,2}TARGET\s*SYSTEM\*{0,2}\s*:?\s*([^\n]+)` after the
`TARGET` anchor. -/
def targetTail (rest : List Char) : Option (List Char) :=
  let r1 := rest.dropWhile pyWs
  if ciStartsWith r1 "SYSTEM".data then
    let r2 := dropUpTo2Stars (r1.drop 6)
    let r3 := r2.dropWhile pyWs
    let r4 := match r3 with | ':' :: m => m | _ => r3
    lineTail r4
  else none

/-- `re.sub(r'^\*{2,}|\*{2,}$', '', v)`: remove a leading star run of length
at least two and a trailing star run of length at least two. -/
def stripStarRuns2 (l : List Char) : List Char :=
  let lead := l.takeWhile (· = '*')
  let a := if lead.length ≥ 2 then l.drop lead.length else l
  let rev := a.reverse
  let tr := rev.takeWhile (· = '*')
  if tr.length ≥ 2 then (rev.drop tr.length).reverse else a

/-- `parse_actions` (multi_agent.py lines 275–314; the `logging` calls have
no bearing on the returned value and are not modelled). -/
def parse_actions (text : String) : ActionsOutput :=
  if text = "" then {} else
  let rollback :=
    match reSearch "ROLLBACK".data rollbackTail text.data with
    | some cap => String.mk (strip cap)
    | none => ""
  let target :=
    match reSearch "TARGET".data targetTail text.data with
    | some cap => String.mk (strip (stripStarRuns2 (strip cap)))
    | none => ""
  { immediate := _extract_numbered_or_bulleted_list text "IMMEDIATE",
    short_term := _extract_numbered_or_bulleted_list text "SHORT-TERM",
    preventive := _extract_numbered_or_bulleted_list text "PREVENTIVE",
    rollback_plan := rollback,
    target_system := target }

/-! ## `parse_consistency_v2` -/

/-- Output schema of the Consistency role (`ConsistencyOutput` dataclass). -/
structure ConsistencyOutput where
  factual_conflicts : List String := []
  interpretation_conflicts : List String := []
  agreements : List String := []
  confidence : Nat := 0
  quality_assessment : String := ""
  recommendation : String := ""
deriving Repr, DecidableEq, Inhabited

/-- `_CONSISTENCY_LABELS` (multi_agent.py lines 363–364). -/
def _CONSISTENCY_LABELS : List String :=
  ["FACTUAL CONFLICTS", "INTERPRETATION CONFLICTS", "AGREEMENTS",
   "QUALITY ASSESSMENT", "RECOMMENDATION"]

/-- Boundary of `QUALITY ASSESSMENT:\s*(.+?)(?=\n[A-Z][A-Z ]+:|$)`
(IGNORECASE·DOTALL): newline, letter, a non-empty run of letters/spaces,
colon. -/
def bdQuality (s : List Char) : Bool :=
  match s with
  | '\n' :: c :: rest =>
    asciiLetter c &&
      (let run := rest.takeWhile (fun x => asciiLetter x ∨ x = ' ')
       (!run.isEmpty) &&
         (match rest.drop run.length with | ':' :: _ => true | _ => false))
  | _ => false

/-- The quality-assessment section capture of `parse_consistency_v2`:
`re.search(r'QUALITY ASSESSMENT:\s*(.+?)(?=\n[A-Z][A-Z ]+:|$)', text,
re.IGNORECASE | re.DOTALL)`, stripped. -/
def extractQuality (text : String) : Option String :=
  (reSearch "QUALITY ASSESSMENT:".data
    (blockTail1 (fun s => bdQuality s ∨ s = ['\n'])) text.data).map
    (fun cap => String.mk (strip cap))

/-- `parse_consistency_v2` (multi_agent.py lines 482–521). -/
def parse_consistency_v2 (text : String) : ConsistencyOutput :=
  if text = "" then {} else
  let factual := _extract_numbered_or_bulleted_list text "FACTUAL CONFLICTS" _CONSISTENCY_LABELS
  let interp := _extract_numbered_or_bulleted_list text "INTERPRETATION CONFLICTS" _CONSISTENCY_LABELS
  let agree := _extract_numbered_or_bulleted_list text "AGREEMENTS" _CONSISTENCY_LABELS
  let qc :=
    match extractQuality text with
    | some qa =>
      (qa,
       if hasSub (upperL qa.data) "HIGH".data then 90
       else if hasSub (upperL qa.data) "MEDIUM".data then 60
       else 30)
    | none => ("", 0)
  let recommendation :=
    match reSearch "RECOMMENDATION:".data restTail text.data with
    | some cap => String.mk (strip cap)
    | none => ""
  { factual_conflicts := factual, interpretation_conflicts := interp,
    agreements := agree, confidence := qc.2, quality_assessment := qc.1,
    recommendation := recommendation }

example : parse_actions "" = {} := by decide

example :
    parse_actions "TARGET SYSTEM: Server_A\nIMMEDIATE (within 5 minutes):\n- Restart service\n- None found\nSHORT-TERM:\n1. Patch config\nPREVENTIVE:\n[Empty if none]\nROLLBACK PLAN: revert deploy\nstep two" =
    { immediate := ["Restart service"], short_term := ["Patch config"],
      preventive := [], rollback_plan := "revert deploy",
      target_system := "Server_A" } := by decide

example : parse_consistency_v2 "" = {} := by decide

example :
    parse_consistency_v2 "FACTUAL CONFLICTS:\n\nINTERPRETATION CONFLICTS:\n- different theories\nAGREEMENTS:\n- all agree on Server_A\nQUALITY ASSESSMENT:\nHIGH - perfect agreement\nRECOMMENDATION:\nProceed with confidence" =
    { factual_conflicts := [], interpretation_conflicts := ["different theories"],
      agreements := ["all agree on Server_A"], confidence := 90,
      quality_assessment := "HIGH - perfect agreement",
      recommendation := "Proceed with confidence" } := by decide

/-! ## JSON values and `json.loads` (for `parse_knowledge`)

`json.loads` is modelled by a strict recursive-descent parser over the RFC
8259 grammar that Python's decoder implements.  Deliberate scope notes:
`NaN`/`Infinity` extensions and lone `\u`-surrogate escapes are treated as
decode failures (no claim involves them); numbers are exact rationals; an
object key occurring twice keeps the last value, as a `dict` does. -/

/-- A decoded JSON value.  `int`/`float` are kept apart, as Python does. -/
inductive JVal where
  | null : JVal
  | bool : Bool → JVal
  | int : Int → JVal
  | float : ℚ → JVal
  | str : String → JVal
  | arr : List JVal → JVal
  | obj : List (String × JVal) → JVal
deriving Repr, BEq, Inhabited

/-- JSON whitespace (space, tab, newline, carriage return). -/
def jsonWs (c : Char) : Bool := c = ' ' ∨ c = '\t' ∨ c = '\n' ∨ c = '\r'

/-- Hex digit value. -/
def hexVal (c : Char) : Option Nat :=
  if '0' ≤ c ∧ c ≤ '9' then some (c.toNat - 48)
  else if 'a' ≤ c ∧ c ≤ 'f' then some (c.toNat - 87)
  else if 'A' ≤ c ∧ c ≤ 'F' then some (c.toNat - 70)
  else none

/-- JSON string body after the opening quote: the decoded characters plus
the remainder after the closing quote.  Control characters are rejected;
`\uXXXX` escapes are decoded, combining valid surrogate pairs. -/
def jparseStrGo : List Char → List Char → Option (String × List Char)
  | [], _ => none
  | '"' :: rest, acc => some (String.mk acc.reverse, rest)
  | '\\' :: e :: rest, acc =>
    match e with
    | '"' => jparseStrGo rest ('"' :: acc)
    | '\\' => jparseStrGo rest ('\\' :: acc)
    | '/' => jparseStrGo rest ('/' :: acc)
    | 'b' => jparseStrGo rest ('\x08' :: acc)
    | 'f' => jparseStrGo rest ('\x0c' :: acc)
    | 'n' => jparseStrGo rest ('\n' :: acc)
    | 'r' => jparseStrGo rest ('\r' :: acc)
    | 't' => jparseStrGo rest ('\t' :: acc)
    | 'u' =>
      (match rest with
       | a :: b :: c :: d :: rest2 =>
         match hexVal a, hexVal b, hexVal c, hexVal d with
         | some ha, some hb, some hc, some hd =>
           let n := ((ha * 16 + hb) * 16 + hc) * 16 + hd
           if 0xD800 ≤ n ∧ n ≤ 0xDBFF then
             match rest2 with
             | '\\' :: 'u' :: a2 :: b2 :: c2 :: d2 :: rest3 =>
               (match hexVal a2, hexVal b2, hexVal c2, hexVal d2 with
                | some ha2, some hb2, some hc2, some hd2 =>
                  let m := ((ha2 * 16 + hb2) * 16 + hc2) * 16 + hd2
                  if 0xDC00 ≤ m ∧ m ≤ 0xDFFF then
                    jparseStrGo rest3
                      (Char.ofNat (0x10000 + (n - 0xD800) * 0x400 + (m - 0xDC00)) :: acc)
                  else none
                | _, _, _, _ => none)
             | _ => none
           else if 0xDC00 ≤ n ∧ n ≤ 0xDFFF then none
           else jparseStrGo rest2 (Char.ofNat n :: acc)
         | _, _, _, _ => none
       | _ => none)
    | _ => none
  | c :: rest, acc => if c.toNat < 32 then none else jparseStrGo rest (c :: acc)

/-- Exact value of a decimal literal with fractional part and exponent:
`±(mantissa digits) × 10^(e - fracLen)`, built with `mkRat` over integer
arithmetic only (the `Rat` field operations are irreducible and would block
kernel evaluation of concrete instances). -/
def decimalToRat (neg : Bool) (mantDigits : List Char) (fracLen : Nat) (e : Int) : ℚ :=
  let mant : Int := digitsToNat mantDigits
  let mant := if neg then -mant else mant
  match e - (fracLen : Int) with
  | .ofNat k => mkRat (mant * ((10 ^ k : Nat) : Int)) 1
  | .negSucc k => mkRat mant (10 ^ (k + 1))

/-- JSON number at the head of the input: strict grammar
`-?(0|[1-9][0-9]*)(\.[0-9]+)?([eE][+-]?[0-9]+)?`; an `int` when neither
fraction nor exponent is present, a `float` otherwise. -/
def jparseNum (l : List Char) : Option (JVal × List Char) :=
  let (neg, l1) := match l with | '-' :: r => (true, r) | _ => (false, l)
  let intPart? : Option (List Char × List Char) :=
    match l1 with
    | '0' :: r => some (['0'], r)
    | c :: _ =>
      if '1' ≤ c ∧ c ≤ '9' then
        some (l1.takeWhile asciiDigit, l1.dropWhile asciiDigit)
      else none
    | [] => none
  match intPart? with
  | none => none
  | some (ds, r1) =>
    let (fds, r2, hasFrac) :=
      match r1 with
      | '.' :: r =>
        let f := r.takeWhile asciiDigit
        if f.isEmpty then ([], r1, false) else (f, r.dropWhile asciiDigit, true)
      | _ => ([], r1, false)
    let fracOk := match r1 with | '.' :: _ => hasFrac | _ => true
    if ¬ fracOk then none else
    let expParse : Option (Option (Bool × List Char) × List Char) :=
      match r2 with
      | e :: r =>
        if e = 'e' ∨ e = 'E' then
          let (esign, r') := match r with
            | '+' :: rr => (false, rr)
            | '-' :: rr => (true, rr)
            | _ => (false, r)
          let eds := r'.takeWhile asciiDigit
          if eds.isEmpty then none
          else some (some (esign, eds), r'.dropWhile asciiDigit)
        else some (none, r2)
      | [] => some (none, r2)
    match expParse with
    | none => none
    | some (expPart, r3) =>
      match expPart with
      | none =>
        if hasFrac then some (.float (decimalToRat neg (ds ++ fds) fds.length 0), r3)
        else some (.int (if neg then -(digitsToNat ds : Int) else (digitsToNat ds : Int)), r3)
      | some (esign, eds) =>
        let e : Int := if esign then -(digitsToNat eds : Int) else (digitsToNat eds : Int)
        some (.float (decimalToRat neg (ds ++ fds) fds.length e), r3)

mutual

/-- JSON value at the head of the input (after whitespace), fuel-bounded. -/
def jparseVal : Nat → List Char → Option (JVal × List Char)
  | 0, _ => none
  | fuel + 1, l =>
    match l.dropWhile jsonWs with
    | 'n' :: 'u' :: 'l' :: 'l' :: rest => some (.null, rest)
    | 't' :: 'r' :: 'u' :: 'e' :: rest => some (.bool true, rest)
    | 'f' :: 'a' :: 'l' :: 's' :: 'e' :: rest => some (.bool false, rest)
    | '"' :: rest => (jparseStrGo rest []).map (fun (s, r) => (.str s, r))
    | '[' :: rest =>
      (match rest.dropWhile jsonWs with
       | ']' :: r => some (.arr [], r)
       | _ => (jparseArrElems fuel rest).map (fun (xs, r) => (.arr xs, r)))
    | '\x7b' :: rest =>
      (match rest.dropWhile jsonWs with
       | '\x7d' :: r => some (.obj [], r)
       | _ => (jparseObjMembers fuel rest).map (fun (fs, r) => (.obj fs, r)))
    | other => jparseNum other

/-- One-or-more comma-separated array elements followed by `]`. -/
def jparseArrElems : Nat → List Char → Option (List JVal × List Char)
  | 0, _ => none
  | fuel + 1, l =>
    match jparseVal fuel l with
    | none => none
    | some (v, r) =>
      match r.dropWhile jsonWs with
      | ',' :: r2 => (jparseArrElems fuel r2).map (fun (xs, r3) => (v :: xs, r3))
      | ']' :: r2 => some ([v], r2)
      | _ => none

/-- One-or-more `"key": value` members followed by `\x7d`. -/
def jparseObjMembers : Nat → List Char → Option (List (String × JVal) × List Char)
  | 0, _ => none
  | fuel + 1, l =>
    match l.dropWhile jsonWs with
    | '"' :: rest =>
      match jparseStrGo rest [] with
      | none => none
      | some (k, r) =>
        match r.dropWhile jsonWs with
        | ':' :: r2 =>
          (match jparseVal fuel r2 with
           | none => none
           | some (v, r3) =>
             match r3.dropWhile jsonWs with
             | ',' :: r4 => (jparseObjMembers fuel r4).map (fun (fs, r5) => ((k, v) :: fs, r5))
             | '\x7d' :: r4 => some ([(k, v)], r4)
             | _ => none)
        | _ => none
    | _ => none

end

/-- `json.loads`: parse one value and require only whitespace after it. -/
def json_loads (s : String) : Option JVal :=
  match jparseVal (s.length + 1) s.data with
  | some (v, rest) => if (rest.dropWhile jsonWs).isEmpty then some v else none
  | none => none

/-- `re.search(r'\{.*\}', text, re.DOTALL)`: from the first opening brace to
the last closing brace at or after it. -/
def braceSpan (l : List Char) : Option (List Char) :=
  match l.findIdx? (· = '\x7b') with
  | none => none
  | some i =>
    match l.reverse.findIdx? (· = '\x7d') with
    | none => none
    | some jr =>
      let j := l.length - 1 - jr
      if i < j then some ((l.drop i).take (j - i + 1)) else none

/-- Python exceptions that `parse_knowledge` can produce or must catch.
(The attached message of the real exception is not modelled; no claim
inspects it.) -/
inductive PyErr where
  | typeError : PyErr
  | valueError : PyErr
  | attributeError : PyErr
deriving Repr, DecidableEq, Inhabited

/-- `str(e)` for the error slot of `_run_agent` (abstracted: the exact
CPython message text is immaterial to every claim). -/
def pyErrMsg : PyErr → String
  | .typeError => "TypeError"
  | .valueError => "ValueError"
  | .attributeError => "AttributeError"

/-- `float(str)`: optional surrounding whitespace and sign, then decimal
digits with optional fraction and exponent (at least one digit overall).
`inf`/`nan` spellings are out of scope (the source only reaches this via
`[\d.]+` captures or JSON string values in the claims' inputs). -/
def pyFloatStr (l : List Char) : Option ℚ :=
  let t := strip l
  let (neg, t1) := match t with
    | '-' :: r => (true, r)
    | '+' :: r => (false, r)
    | _ => (false, t)
  let ds := t1.takeWhile asciiDigit
  let r1 := t1.dropWhile asciiDigit
  let (fds, r2, hasDot) :=
    match r1 with
    | '.' :: r => (r.takeWhile asciiDigit, r.dropWhile asciiDigit, true)
    | _ => ([], r1, false)
  if ds.isEmpty ∧ fds.isEmpty then none else
  let _ := hasDot
  match r2 with
  | [] => some (decimalToRat neg (ds ++ fds) fds.length 0)
  | e :: r =>
    if e = 'e' ∨ e = 'E' then
      let (esign, r') := match r with
        | '+' :: rr => (false, rr)
        | '-' :: rr => (true, rr)
        | _ => (false, r)
      let eds := r'.takeWhile asciiDigit
      if eds.isEmpty ∨ ¬ (r'.dropWhile asciiDigit).isEmpty then none
      else
        let ex : Int := if esign then -(digitsToNat eds : Int) else (digitsToNat eds : Int)
        some (decimalToRat neg (ds ++ fds) fds.length ex)
    else none

/-- Python `float(x)` on a JSON-decoded value: numbers and booleans
convert; strings parse or raise `ValueError`; `None`, lists and dicts raise
`TypeError`. -/
def pyFloat : JVal → Except PyErr ℚ
  | .int z => .ok (mkRat z 1)
  | .float q => .ok q
  | .bool b => .ok (if b then mkRat 1 1 else mkRat 0 1)
  | .str s =>
    match pyFloatStr s.data with
    | some q => .ok q
    | none => .error .valueError
  | .null => .error .typeError
  | .arr _ => .error .typeError
  | .obj _ => .error .typeError

/-- Last-wins lookup in a decoded JSON object (Python `dict` semantics with
duplicate keys). -/
def jget (fs : List (String × JVal)) (k : String) : Option JVal :=
  (fs.reverse.find? (fun p => p.1 = k)).map (·.2)

/-! ## `parse_knowledge` -/

/-- Output schema of the Knowledge role (`KnowledgeOutput` dataclass).  The
JSON-sourced fields hold whatever value the decoded object supplied (the
source performs no type check on them), so they are `JVal`; `confidence` is
always the result of `float(…)`. -/
structure KnowledgeOutput where
  suggested_system : JVal := .str ""
  confidence : ℚ := 0
  primary_contact : JVal := .obj []
  backup_contacts : JVal := .arr []
  best_runbook : JVal := .obj []
  alternative_runbooks : JVal := .arr []
  similar_incidents : JVal := .arr []
  financial_context : JVal := .obj []
  reasoning : JVal := .str ""
  kb_sources_used : JVal := .int 0
deriving Repr, BEq, Inhabited

/-- The `except (json.JSONDecodeError, ValueError)` fallback of
`parse_knowledge`: label-anchored extraction over the raw text, applied to
the output record as assigned so far.  The `float` call on the
`CONFIDENCE:` capture is *not* inside any handler, so its `ValueError`
escapes (`[\d.]+` can capture, e.g., `".."`). -/
def knowledgeFallback (t : List Char) (out : KnowledgeOutput) :
    Except PyErr KnowledgeOutput :=
  let out1 :=
    match reSearch "SUGGESTED SYSTEM:".data lineTail t with
    | some cap => { out with suggested_system := .str (String.mk (strip cap)) }
    | none => out
  match reSearch "CONFIDENCE:".data confNumTail t with
  | some ds =>
    (match pyFloatStr ds with
     | some q => .ok { out1 with confidence := q }
     | none => .error .valueError)
  | none => .ok out1

/-- `parse_knowledge` (multi_agent.py lines 317–356).  The `try` block sets
`suggested_system` before converting `confidence`; a `ValueError` from that
conversion (or a JSON decode failure) is caught and routed to the fallback,
while a `TypeError` (e.g. `float(None)`) propagates to the caller.  When the
text contains no `{…}` span at all, the `if json_match:` guard skips the
whole `try` body: no exception is raised and the fallback never runs. -/
def parse_knowledge (text : String) : Except PyErr KnowledgeOutput :=
  if text = "" then .ok {} else
  match braceSpan text.data with
  | none => .ok {}
  | some span =>
    match json_loads (String.mk span) with
    | none => knowledgeFallback text.data {}
    | some v =>
      let data := match v with | .obj fs => fs | _ => []
      let out1 : KnowledgeOutput :=
        { suggested_system := (jget data "suggested_system").getD (.str "") }
      match pyFloat ((jget data "confidence").getD (.float 0)) with
      | .error .valueError => knowledgeFallback text.data out1
      | .error e => .error e
      | .ok q =>
        .ok { out1 with
              confidence := q,
              primary_contact := (jget data "primary_contact").getD (.obj []),
              backup_contacts := (jget data "backup_contacts").getD (.arr []),
              best_runbook := (jget data "best_runbook").getD (.obj []),
              alternative_runbooks := (jget data "alternative_runbooks").getD (.arr []),
              similar_incidents := (jget data "similar_incidents").getD (.arr []),
              financial_context := (jget data "financial_context").getD (.obj []),
              reasoning := (jget data "reasoning").getD (.str ""),
              kb_sources_used := (jget data "kb_sources_used").getD (.int 0) }

/-! ## Claim C2, C3, C5 — parser totality, fallback routing, clamping -/

/-- C2: the specification asserts that every role parser is a total
function — for every input it returns a typed record without raising, and
the empty string yields the all-zero record.  The zero-record half is true
for all five parsers, but `parse_knowledge` is **not** total: on
`{"confidence": null}` the JSON decode succeeds and `float(None)` raises a
`TypeError`, which the `except (json.JSONDecodeError, ValueError)` handler
does not catch, so the exception escapes the parser.  The handler's
inclusion of `ValueError` shows the intent that conversion failures stay
inside the parser; the uncaught `TypeError` is a slip in the code, settled
as a code bug. -/
theorem parse_knowledge_type_error_code_bug :
    (parse_root_cause "" = {} ∧ parse_impact "" = {} ∧ parse_actions "" = {} ∧
     parse_consistency_v2 "" = {} ∧ parse_knowledge "" = .ok {}) ∧
    parse_knowledge "\x7b\"confidence\": null\x7d" = .error .typeError :=
  ⟨⟨rfl, rfl, rfl, rfl, rfl⟩, rfl⟩

/-- C3 counterexample: on the claim's brace-free input
`"SUGGESTED SYSTEM: Server_B\nCONFIDENCE: 0.6"` there is no `{…}` span, so
the `if json_match:` guard skips the whole `try` body; no decode error is
raised and the fallback never runs — `parse_knowledge` returns the zero
record, not `Server_B` / `0.6`. -/
theorem knowledge_no_brace_fallback_cex :
    parse_knowledge "SUGGESTED SYSTEM: Server_B\nCONFIDENCE: 0.6" = .ok {} ∧
    ({} : KnowledgeOutput).suggested_system ≠ JVal.str "Server_B" ∧
    ({} : KnowledgeOutput).confidence ≠ (0.6 : ℚ) := by
  refine ⟨rfl, ?_, ?_⟩
  · intro h
    have : ("" : String) = "Server_B" := by injection h
    simp at this
  · intro h
    have : ((0 : ℚ) = 0.6) := h
    norm_num at this

/-- C3 amended: the label-anchored fallback runs exactly when a brace span
is present but fails to decode as JSON; on such an input the labels are
honoured (`suggested_system = "Server_B"`, `confidence = 0.6`), while the
claim's brace-free input returns the zero record (see the
counterexample). -/
theorem knowledge_fallback_on_decode_failure :
    parse_knowledge "\x7bx\x7d\nSUGGESTED SYSTEM: Server_B\nCONFIDENCE: 0.6" =
      .ok { suggested_system := .str "Server_B", confidence := mkRat 3 5 } ∧
    mkRat 3 5 = (0.6 : ℚ) :=
  ⟨by rfl, by norm_num [Rat.mkRat_eq_div]⟩

/-- C5 counterexample: `parse_knowledge` does not clamp its confidence —
`out.confidence = float(data.get('confidence', 0.0))` has no bound, so
`{"confidence": 5}` yields `5.0`, outside `[0.0, 1.0]`. -/
theorem knowledge_confidence_unclamped_cex :
    parse_knowledge "\x7b\"confidence\": 5\x7d" =
      .ok { confidence := (5 : ℚ) } ∧ ¬ ((5 : ℚ) ≤ 1) := by
  refine ⟨rfl, by norm_num⟩

/-- C5 amended: `parse_root_cause` clamps as claimed — its confidence is
always in `[0, 100]` (`\d+` is non-negative, `min(·, 100)` bounds above),
and a missing or non-numeric `CONFIDENCE:` yields `0`.  For the Knowledge
role the claim fails: the parsed float is returned *unclamped*
(`{"confidence": 5}` gives `5.0`); only the default is `0.0` when the field
is missing. -/
theorem confidence_clamp_amended :
    (∀ text : String,
      0 ≤ (parse_root_cause text).confidence ∧
      (parse_root_cause text).confidence ≤ 100) ∧
    parse_root_cause "CONFIDENCE: 250" = { confidence := 100 } ∧
    parse_root_cause "CONFIDENCE: none" = {} ∧
    parse_knowledge "\x7b\"confidence\": 5\x7d" = .ok { confidence := (5 : ℚ) } ∧
    parse_knowledge "\x7b\"suggested_system\": \"X\"\x7d" =
      .ok { suggested_system := .str "X" } := by
  refine ⟨?_, rfl, rfl, rfl, rfl⟩
  intro text
  refine ⟨Nat.zero_le _, ?_⟩
  by_cases ht : text = ""
  · subst ht; simp [parse_root_cause]
  · simp only [parse_root_cause, ht, if_false]
    cases h : reSearch "CONFIDENCE:".data natNumTail text.data with
    | none => simp [h]
    | some ds => simp [h, min_le_right]

/-! ## Claim C4 — quality tier → confidence mapping -/

/-- C4 counterexample: the claim says a quality text matching none of the
three tiers yields confidence 0, but the source's `else` arm assigns 30
whenever the `QUALITY ASSESSMENT:` label is present — `LOW` is never even
tested.  A present-but-unmatched quality text therefore yields 30, not 0. -/
theorem quality_unmatched_confidence_cex :
    (parse_consistency_v2 "QUALITY ASSESSMENT: garbage text").confidence = 30 ∧
    (30 : Nat) ≠ 0 := ⟨rfl, by decide⟩

/-- C4 amended: when the `QUALITY ASSESSMENT:` section is found, a text
containing `HIGH` yields 90, else one containing `MEDIUM` yields 60, and
anything else — including `LOW` and unmatched text — yields 30; confidence
is 0 only when the label is absent altogether. -/
theorem quality_tier_confidence_map (text : String) :
    (extractQuality text = none → (parse_consistency_v2 text).confidence = 0) ∧
    (∀ qa, extractQuality text = some qa →
      (parse_consistency_v2 text).confidence =
        (if hasSub (upperL qa.data) "HIGH".data then 90
         else if hasSub (upperL qa.data) "MEDIUM".data then 60
         else 30)) := by
  by_cases ht : text = ""
  · subst ht
    refine ⟨fun _ => rfl, fun qa h => ?_⟩
    rw [show extractQuality "" = none from rfl] at h
    exact Option.noConfusion h
  · constructor
    · intro h; simp [parse_consistency_v2, ht, h]
    · intro qa h; simp [parse_consistency_v2, ht, h]

/-- C4 witness: instances of the amended mapping — `LOW` and `HIGH`
quality sections, evaluated concretely. -/
theorem quality_tier_confidence_map_witness :
    (parse_consistency_v2 "QUALITY ASSESSMENT: LOW agreement").confidence = 30 ∧
    (parse_consistency_v2 "QUALITY ASSESSMENT: HIGH agreement").confidence = 90 := by
  constructor
  · exact ((quality_tier_confidence_map "QUALITY ASSESSMENT: LOW agreement").2
      "LOW agreement" (by rfl)).trans (by rfl)
  · exact ((quality_tier_confidence_map "QUALITY ASSESSMENT: HIGH agreement").2
      "HIGH agreement" (by rfl)).trans (by rfl)

/-! ## Claim C6 — placeholder suppression -/

/-- Every item produced by the line loop of
`_extract_numbered_or_bulleted_list` is non-empty and non-placeholder (it
survived the filter). -/
theorem mem_extractItems_clean {block : List Char} {cl : List Char}
    (h : cl ∈ extractItems block) : isPlaceholder cl = false ∧ cl ≠ [] := by
  unfold extractItems at h
  have hp := List.of_mem_filter h
  have h1 : (!cl.isEmpty) = true ∧ (!isPlaceholder cl) = true := by
    simpa [Bool.and_eq_true] using hp
  refine ⟨by simpa using h1.2, ?_⟩
  intro hnil
  rw [hnil] at h1
  simp at h1

/-- Items returned by `_extract_numbered_or_bulleted_list` are non-empty
and never match a placeholder pattern. -/
theorem mem_extract_clean {text label : String} {labels : List String} {it : String}
    (h : it ∈ _extract_numbered_or_bulleted_list text label labels) :
    isPlaceholder it.data = false ∧ it ≠ "" := by
  unfold _extract_numbered_or_bulleted_list at h
  simp only [] at h
  split at h
  · obtain ⟨cl, hcl, hmk⟩ := List.mem_map.mp h
    obtain ⟨hph, hne⟩ := mem_extractItems_clean hcl
    subst hmk
    refine ⟨hph, ?_⟩
    intro hempty
    exact hne (by simpa using congrArg String.data hempty)
  · cases h

/-- For non-empty input the three action lists are exactly the generic
extractions. -/
theorem parse_actions_fields (text : String) (ht : text ≠ "") :
    (parse_actions text).immediate = _extract_numbered_or_bulleted_list text "IMMEDIATE" ∧
    (parse_actions text).short_term = _extract_numbered_or_bulleted_list text "SHORT-TERM" ∧
    (parse_actions text).preventive = _extract_numbered_or_bulleted_list text "PREVENTIVE" := by
  unfold parse_actions
  rw [if_neg ht]
  exact ⟨rfl, rfl, rfl⟩

/-- For non-empty input the three consistency lists are exactly the generic
extractions with the consistency label set. -/
theorem parse_consistency_fields (text : String) (ht : text ≠ "") :
    (parse_consistency_v2 text).factual_conflicts =
      _extract_numbered_or_bulleted_list text "FACTUAL CONFLICTS" _CONSISTENCY_LABELS ∧
    (parse_consistency_v2 text).interpretation_conflicts =
      _extract_numbered_or_bulleted_list text "INTERPRETATION CONFLICTS" _CONSISTENCY_LABELS ∧
    (parse_consistency_v2 text).agreements =
      _extract_numbered_or_bulleted_list text "AGREEMENTS" _CONSISTENCY_LABELS := by
  unfold parse_consistency_v2
  rw [if_neg ht]
  exact ⟨rfl, rfl, rfl⟩

/-- C6 counterexample: the claim extends placeholder suppression to
`affected_systems` (parse_impact) and `causal_chain` (parse_root_cause),
but those two fields are plain splits with no placeholder filter: a bare
`none` — which matches the suppression pattern list — survives into both
(and even becomes the default primary system). -/
theorem affected_systems_placeholder_cex :
    (parse_impact "AFFECTED SYSTEMS: none").affected_systems = ["none"] ∧
    (parse_impact "AFFECTED SYSTEMS: none").primary_system = "none" ∧
    (parse_root_cause "CHAIN: none -> fix").causal_chain = ["none", "fix"] ∧
    isPlaceholder "none".data = true := ⟨rfl, rfl, rfl, by decide⟩

/-- C6 amended: placeholder suppression holds exactly for the six list
fields that go through `_extract_numbered_or_bulleted_list`
(immediate / short-term / preventive and the three consistency lists):
every returned item is non-empty and matches no placeholder pattern — in
particular the four placeholder strings named by the claim can never
appear.  `affected_systems` and `causal_chain` are not filtered (see the
counterexample). -/
theorem placeholder_suppression_extract_fields (text : String) :
    ((∀ it ∈ (parse_actions text).immediate, isPlaceholder it.data = false ∧ it ≠ "") ∧
     (∀ it ∈ (parse_actions text).short_term, isPlaceholder it.data = false ∧ it ≠ "") ∧
     (∀ it ∈ (parse_actions text).preventive, isPlaceholder it.data = false ∧ it ≠ "") ∧
     (∀ it ∈ (parse_consistency_v2 text).factual_conflicts, isPlaceholder it.data = false ∧ it ≠ "") ∧
     (∀ it ∈ (parse_consistency_v2 text).interpretation_conflicts, isPlaceholder it.data = false ∧ it ≠ "") ∧
     (∀ it ∈ (parse_consistency_v2 text).agreements, isPlaceholder it.data = false ∧ it ≠ "")) ∧
    (isPlaceholder "none".data = true ∧ isPlaceholder "none found".data = true ∧
     isPlaceholder "n/a".data = true ∧ isPlaceholder "[empty if none]".data = true) := by
  refine ⟨?_, by decide⟩
  by_cases ht : text = ""
  · subst ht
    exact ⟨fun it h => absurd h (by simp [show parse_actions "" = {} from rfl]),
           fun it h => absurd h (by simp [show parse_actions "" = {} from rfl]),
           fun it h => absurd h (by simp [show parse_actions "" = {} from rfl]),
           fun it h => absurd h (by simp [show parse_consistency_v2 "" = {} from rfl]),
           fun it h => absurd h (by simp [show parse_consistency_v2 "" = {} from rfl]),
           fun it h => absurd h (by simp [show parse_consistency_v2 "" = {} from rfl])⟩
  · refine ⟨fun it h => ?_, fun it h => ?_, fun it h => ?_,
      fun it h => ?_, fun it h => ?_, fun it h => ?_⟩
    · rw [(parse_actions_fields text ht).1] at h; exact mem_extract_clean h
    · rw [(parse_actions_fields text ht).2.1] at h; exact mem_extract_clean h
    · rw [(parse_actions_fields text ht).2.2] at h; exact mem_extract_clean h
    · rw [(parse_consistency_fields text ht).1] at h; exact mem_extract_clean h
    · rw [(parse_consistency_fields text ht).2.1] at h; exact mem_extract_clean h
    · rw [(parse_consistency_fields text ht).2.2] at h; exact mem_extract_clean h

/-- C6 witness: a concrete Actions response mixing valid items with
placeholders — the surviving item is non-empty and non-placeholder, and the
parsed lists show the suppression (and empty-section ⇒ empty list)
behaviour concretely. -/
theorem placeholder_suppression_extract_fields_witness :
    (isPlaceholder "Restart service".data = false ∧ ("Restart service" : String) ≠ "") ∧
    (parse_actions "IMMEDIATE:\n- Restart service\n- None found\nSHORT-TERM:\nN/A\nPREVENTIVE:\n").immediate = ["Restart service"] ∧
    (parse_actions "IMMEDIATE:\n- Restart service\n- None found\nSHORT-TERM:\nN/A\nPREVENTIVE:\n").short_term = [] ∧
    (parse_actions "IMMEDIATE:\n- Restart service\n- None found\nSHORT-TERM:\nN/A\nPREVENTIVE:\n").preventive = [] := by
  refine ⟨?_, rfl, rfl, rfl⟩
  exact (placeholder_suppression_extract_fields
      "IMMEDIATE:\n- Restart service\n- None found\nSHORT-TERM:\nN/A\nPREVENTIVE:\n").1.1
    "Restart service"
    (by rw [show (parse_actions "IMMEDIATE:\n- Restart service\n- None found\nSHORT-TERM:\nN/A\nPREVENTIVE:\n").immediate = ["Restart service"] from rfl]
        exact List.mem_singleton_self _)

/-! ## Claim C9 — primary-system default, user-impact dedup/cap -/

theorem dropWhile_idem (p : Char → Bool) (l : List Char) :
    (l.dropWhile p).dropWhile p = l.dropWhile p := by
  induction l with
  | nil => rfl
  | cons c t ih =>
    by_cases h : p c
    · simp [List.dropWhile_cons, h, ih]
    · simp [List.dropWhile_cons, h]

theorem dropWhile_head_false (p : Char → Bool) :
    ∀ (l : List Char) (x : Char) (xs : List Char),
      l.dropWhile p = x :: xs → p x = false := by
  intro l
  induction l with
  | nil => intro x xs h; cases h
  | cons c t ih =>
    intro x xs h
    rw [List.dropWhile_cons] at h
    by_cases hc : p c
    · rw [if_pos hc] at h; exact ih x xs h
    · rw [if_neg hc] at h
      cases h
      simpa using hc

/-- The right trim `(x.reverse.dropWhile p).reverse` is a prefix of `x`. -/
theorem trimRight_is_pre (p : Char → Bool) (x : List Char) :
    ∃ t, (x.reverse.dropWhile p).reverse ++ t = x := by
  refine ⟨(x.reverse.takeWhile p).reverse, ?_⟩
  rw [← List.reverse_append, List.takeWhile_append_dropWhile, List.reverse_reverse]

/-- `str.strip()` is idempotent. -/
theorem strip_strip (l : List Char) : strip (strip l) = strip l := by
  unfold strip
  set b := l.dropWhile pyWs with hb
  set c := b.reverse.dropWhile pyWs with hc
  have hcrev : c.reverse.dropWhile pyWs = c.reverse := by
    cases hcr : c.reverse with
    | nil => rfl
    | cons x xs =>
      obtain ⟨t, ht⟩ := trimRight_is_pre pyWs b
      rw [← hc, hcr] at ht
      have hbx : b.dropWhile pyWs = x :: (xs ++ t) := by
        rw [hb, dropWhile_idem]
        exact (ht.trans hb).symm
      have hx := dropWhile_head_false pyWs b x (xs ++ t) hbx
      rw [List.dropWhile_cons, hx]
      simp
  rw [hcrev, List.reverse_reverse, hc, dropWhile_idem]

/-- The dedup key is insensitive to the stripping performed on kept lines. -/
theorem normalizeLine_strip (l : List Char) :
    normalizeLine (strip l) = normalizeLine l := by
  unfold normalizeLine
  rw [strip_strip]

theorem dedupGo_length : ∀ (ls : List (List Char)) (seen : List (List Char)),
    (dedupGo ls seen).length ≤ ls.length := by
  intro ls
  induction ls with
  | nil => intro seen; simp [dedupGo]
  | cons l t ih =>
    intro seen
    unfold dedupGo
    by_cases h : normalizeLine l ≠ [] ∧ normalizeLine l ∉ seen
    · rw [if_pos h]
      simpa using ih (normalizeLine l :: seen)
    · rw [if_neg h]
      exact le_trans (ih seen) (Nat.le_succ _)

theorem dedupGo_keys_fresh : ∀ (ls seen : List (List Char)),
    (∀ x ∈ dedupGo ls seen, normalizeLine x ∉ seen) ∧
    (dedupGo ls seen).Pairwise (fun a b => normalizeLine a ≠ normalizeLine b) := by
  intro ls
  induction ls with
  | nil => intro seen; exact ⟨by simp [dedupGo], by simp [dedupGo]⟩
  | cons l t ih =>
    intro seen
    unfold dedupGo
    by_cases h : normalizeLine l ≠ [] ∧ normalizeLine l ∉ seen
    · rw [if_pos h]
      obtain ⟨ihf, ihp⟩ := ih (normalizeLine l :: seen)
      constructor
      · intro x hx
        rcases List.mem_cons.mp hx with hx | hx
        · subst hx; rw [normalizeLine_strip]; exact h.2
        · exact fun hmem => (ihf x hx) (List.mem_cons_of_mem _ hmem)
      · refine List.Pairwise.cons ?_ ihp
        intro b hb
        rw [normalizeLine_strip]
        intro heq
        exact (ihf b hb) (heq ▸ List.mem_cons_self _ _)
    · rw [if_neg h]
      obtain ⟨ihf, ihp⟩ := ih seen
      exact ⟨ihf, ihp⟩

theorem dedupGo_mem : ∀ (ls seen : List (List Char)) (x : List Char),
    x ∈ dedupGo ls seen → ∃ l ∈ ls, x = strip l := by
  intro ls
  induction ls with
  | nil => intro seen x hx; simp [dedupGo] at hx
  | cons l t ih =>
    intro seen x hx
    unfold dedupGo at hx
    by_cases h : normalizeLine l ≠ [] ∧ normalizeLine l ∉ seen
    · rw [if_pos h] at hx
      rcases List.mem_cons.mp hx with hx | hx
      · exact ⟨l, List.mem_cons_self _ _, hx⟩
      · obtain ⟨l', hl', he⟩ := ih _ x hx
        exact ⟨l', List.mem_cons_of_mem _ hl', he⟩
    · rw [if_neg h] at hx
      obtain ⟨l', hl', he⟩ := ih _ x hx
      exact ⟨l', List.mem_cons_of_mem _ hl', he⟩

/-- Members of `strip l` are members of `l`. -/
theorem mem_strip_sub {c : Char} {l : List Char} (h : c ∈ strip l) : c ∈ l := by
  unfold strip at h
  rw [List.mem_reverse] at h
  have h1 := (List.dropWhile_suffix pyWs).subset h
  rw [List.mem_reverse] at h1
  exact (List.dropWhile_suffix pyWs).subset h1

/-- Pieces produced by `splitAnyGo` contain no separator characters
(provided the accumulator does not either). -/
theorem splitAnyGo_no_sep (sepP : Char → Bool) :
    ∀ (l acc : List Char), (∀ c ∈ acc, sepP c = false) →
      ∀ piece ∈ splitAnyGo sepP l acc, ∀ c ∈ piece, sepP c = false := by
  intro l
  induction l with
  | nil =>
    intro acc hacc piece hp c hc
    simp only [splitAnyGo, List.mem_singleton] at hp
    subst hp
    exact hacc c (List.mem_reverse.mp hc)
  | cons d t ih =>
    intro acc hacc piece hp c hc
    unfold splitAnyGo at hp
    by_cases hd : sepP d
    · rw [if_pos hd] at hp
      rcases List.mem_cons.mp hp with hp | hp
      · subst hp; exact hacc c (List.mem_reverse.mp hc)
      · exact ih [] (by simp) piece hp c hc
    · rw [if_neg hd] at hp
      refine ih (d :: acc) ?_ piece hp c hc
      intro e he
      rcases List.mem_cons.mp he with he | he
      · subst he; simpa using hd
      · exact hacc e he

/-- C9: on every input, (a) when no `PRIMARY SYSTEM` label is found (on the
cleaned text, where the source searches it) and the affected-systems list is
non-empty, `primary_system` is its first element; (b) the user-impact
narrative is the newline-join of at most five lines, none containing a
newline, whose case/whitespace-insensitive normalisations are pairwise
distinct (duplicates removed). -/
theorem impact_primary_default_and_user_impact_cap (text : String) :
    (reSearch "PRIMARY SYSTEM:".data lineTail (impactCleanup text.data) = none →
      ∀ p rest, (parse_impact text).affected_systems = p :: rest →
        (parse_impact text).primary_system = p) ∧
    (∃ ls : List (List Char),
      (parse_impact text).user_impact = String.mk (joinNl ls) ∧
      ls.length ≤ 5 ∧
      (∀ l ∈ ls, ∀ c ∈ l, (c = '\n' : Bool) = false) ∧
      ls.Pairwise (fun a b => normalizeLine a ≠ normalizeLine b)) := by
  by_cases ht : text = ""
  · subst ht
    refine ⟨fun _ p rest haff => ?_, ⟨[], rfl, by simp, by simp, by simp⟩⟩
    rw [show (parse_impact "").affected_systems = [] from rfl] at haff
    cases haff
  · constructor
    · intro hnp p rest haff
      rw [show (parse_impact text).primary_system =
            (match reSearch "PRIMARY SYSTEM:".data lineTail (impactCleanup text.data) with
             | some cap => String.mk (strip cap)
             | none =>
               match (parse_impact text).affected_systems with
               | p :: _ => p
               | [] => "") by
            unfold parse_impact; rw [if_neg ht]]
      rw [hnp, haff]
    · rw [show (parse_impact text).user_impact =
            (match reSearch "USER IMPACT:".data (blockTail1 bdUpper) (impactCleanup text.data) with
             | some cap =>
               String.mk (joinNl (dedupGo (((splitAnyGo (· = '\n')
                 (uptoSub '\n' ['\n'] (strip cap)) []).take 5)) []))
             | none => "") by
            unfold parse_impact; rw [if_neg ht]]
      cases hui : reSearch "USER IMPACT:".data (blockTail1 bdUpper) (impactCleanup text.data) with
      | none => exact ⟨[], rfl, by simp, by simp, by simp⟩
      | some cap =>
        refine ⟨dedupGo ((splitAnyGo (· = '\n') (uptoSub '\n' ['\n'] (strip cap)) []).take 5) [],
          rfl, ?_, ?_, (dedupGo_keys_fresh _ []).2⟩
        · exact le_trans (dedupGo_length _ _) (by simp)
        · intro l hl c hc
          obtain ⟨l', hl', he⟩ := dedupGo_mem _ _ l hl
          have hl'2 : l' ∈ splitAnyGo (· = '\n') (uptoSub '\n' ['\n'] (strip cap)) [] :=
            List.take_subset 5 _ hl'
          have := splitAnyGo_no_sep (fun c => c = '\n')
            (uptoSub '\n' ['\n'] (strip cap)) [] (by simp) l' hl'2 c
          subst he
          exact this (mem_strip_sub hc)

/-- C9 witness: a concrete impact text with no PRIMARY SYSTEM label — the
primary system defaults to the first affected system, and the user-impact
block is deduplicated and capped. -/
theorem impact_primary_default_and_user_impact_cap_witness :
    (parse_impact "AFFECTED SYSTEMS: Server_A, Server_B\nUSER IMPACT: users blocked").primary_system
      = "Server_A" := by
  exact (impact_primary_default_and_user_impact_cap
      "AFFECTED SYSTEMS: Server_A, Server_B\nUSER IMPACT: users blocked").1
    (by rfl) "Server_A" ["Server_B"] (by rfl)

/-! ## Python value rendering and shared context -/

/-- Python slice `s[:n]` (first `n` characters), over the char list to stay
kernel-reducible. -/
def pyTake (n : Nat) (s : String) : String := String.mk (s.data.take n)

/-- `sep.join(xs)`. -/
def joinWith (sep : String) : List String → String
  | [] => ""
  | [x] => x
  | x :: xs => x ++ sep ++ joinWith sep xs

/-- Decimal rendering of a rational that is a float's exact value; used for
`repr(float)`.  Finite decimal expansions print exactly; the (unreachable
for claim inputs) infinite case falls back to a fraction rendering.  This
abstracts CPython's shortest-round-trip float repr, consistently with
modelling floats as exact rationals. -/
def pyFloatRepr (q : ℚ) : String :=
  let fuel := 64
  let rec stripZeros : Nat → List Char → List Char
    | 0, l => l
    | _ + 1, [] => []
    | f + 1, '0' :: l => stripZeros f l
    | _ + 1, l => l
  let sign := if q.num < 0 then "-" else ""
  let n : Nat := q.num.natAbs
  let ip : Nat := n / q.den
  let rem : Nat := n % q.den
  let fracDigits : Nat := rem * 10 ^ fuel / q.den
  if rem * 10 ^ fuel % q.den = 0 then
    let ds := (Nat.toDigits 10 fracDigits)
    let padded := List.replicate (fuel - ds.length) '0' ++ ds
    let kept := (stripZeros fuel padded.reverse).reverse
    let kept := if kept.isEmpty then ['0'] else kept
    sign ++ toString ip ++ "." ++ String.mk kept
  else sign ++ toString ip ++ "~" ++ toString rem ++ "/" ++ toString q.den

mutual

/-- Python `repr()` of a JSON-decoded value.  String quoting is simplified
to plain single quotes: no claim inspects reprs of strings containing
quotes or escapes. -/
def pyReprJ : JVal → String
  | .null => "None"
  | .bool true => "True"
  | .bool false => "False"
  | .int z => toString z
  | .float q => pyFloatRepr q
  | .str s => "'" ++ s ++ "'"
  | .arr xs => "[" ++ joinWith ", " (pyReprList xs) ++ "]"
  | .obj fs => "\x7b" ++ joinWith ", " (pyReprObjList fs) ++ "\x7d"

/-- `repr` of array elements. -/
def pyReprList : List JVal → List String
  | [] => []
  | v :: vs => pyReprJ v :: pyReprList vs

/-- `repr` of object members. -/
def pyReprObjList : List (String × JVal) → List String
  | [] => []
  | (k, v) :: ps => ("'" ++ k ++ "': " ++ pyReprJ v) :: pyReprObjList ps

end

/-- Python `str()` of a JSON-decoded value (as interpolated by f-strings):
the string itself for `str`, `repr` for every other type. -/
def pyStrJ (v : JVal) : String :=
  match v with
  | .str s => s
  | _ => pyReprJ v

/-- Python truthiness of a JSON-decoded value. -/
def jTruthy : JVal → Bool
  | .null => false
  | .bool b => b
  | .int z => z ≠ 0
  | .float q => q ≠ 0
  | .str s => s ≠ ""
  | .arr xs => !xs.isEmpty
  | .obj fs => !fs.isEmpty

/-- Number of distinct keys among decoded object members: `json.loads`
collapses duplicate keys into one dict entry, so Python's `len(dict)`
counts each key once. -/
def countKeysDistinct (seen : List String) : List (String × JVal) → Nat
  | [] => 0
  | (k, _) :: ps =>
    if seen.contains k then countKeysDistinct seen ps
    else countKeysDistinct (k :: seen) ps + 1

/-- Python `len()` on the decoded values for which it is defined (`str`,
`list`, `dict`).  On a scalar the source raises `TypeError` — this total
variant collapses that path to `0` and is meaningful only on the sized
slice; the faithful embedding is `jLenE`, and the two agree whenever
`jLenE` succeeds (`jLenE_agrees`). -/
def jLen : JVal → Nat
  | .arr xs => xs.length
  | .obj fs => countKeysDistinct [] fs
  | .str s => s.length
  | _ => 0

/-- `dict.get(k, default)` rendered through an f-string, for JSON-decoded
records (`kb.primary_contact.get('name', 'Unknown')`).  On a non-`dict`
value the attribute lookup `.get` raises `AttributeError` in the source —
this total variant collapses that path to the default and is meaningful
only on the `obj` slice; the faithful embedding is `jvalGetStrE`, and the
two agree whenever `jvalGetStrE` succeeds (`jvalGetStrE_agrees`). -/
def jvalGetStr (v : JVal) (k : String) (d : String) : String :=
  match v with
  | .obj fs =>
    match jget fs k with
    | some x => pyStrJ x
    | none => d
  | _ => d

/-- `.get` is an attribute only `dict` has among decoded values: on any
other value Python raises `AttributeError`. -/
def jvalGetStrE (v : JVal) (k : String) (d : String) : Except PyErr String :=
  match v with
  | .obj fs =>
    .ok (match jget fs k with
         | some x => pyStrJ x
         | none => d)
  | _ => .error .attributeError

/-- Python `len()`, faithfully: defined for `str`, `list` and `dict`
decoded values, `TypeError` on `int`, `float`, `bool` and `None`. -/
def jLenE : JVal → Except PyErr Nat
  | .arr xs => .ok xs.length
  | .obj fs => .ok (countKeysDistinct [] fs)
  | .str s => .ok s.length
  | _ => .error .typeError

/-- The decoded value is a `dict` (so `.get` is defined on it). -/
def isObjJ : JVal → Bool
  | .obj _ => true
  | _ => false

/-- The decoded value is sized (so `len()` is defined on it). -/
def isSizedJ : JVal → Bool
  | .arr _ => true
  | .obj _ => true
  | .str _ => true
  | _ => false

/-- Python `'{:.0%}'.format(q)`: round `100·q` half-to-even to an integer,
then append `%`.  Integer arithmetic only (`Int.fdiv` is floor division). -/
def formatPercent0 (q : ℚ) : String :=
  let n : Int := q.num * 100
  let d : Int := (q.den : Int)
  let fl : Int := Int.fdiv n d
  let r : Int := n - fl * d
  let rounded : Int :=
    if 2 * r > d then fl + 1
    else if 2 * r < d then fl
    else if Int.emod fl 2 = 0 then fl else fl + 1
  toString rounded ++ "%"

/-- A contact object as consumed by `build_shared_context`
(`contacts[0].name`, `contacts[0].role`). -/
structure Contact where
  name : String
  role : String
deriving Repr, DecidableEq, Inhabited

/-- A runbook/solution object as consumed by `build_shared_context`
(`solutions[0].title`). -/
structure Solution where
  title : String
deriving Repr, DecidableEq, Inhabited

/-- One extracted timeline event (a dict accessed with `.get` and string
defaults). -/
structure TimelineEvent where
  timestamp : Option String := none
  icon : Option String := none
  component : Option String := none
  message : Option String := none
deriving Repr, DecidableEq, Inhabited

/-- The shared context dict built once per analysis.  The four prompt
builders read the first six keys, which `build_shared_context` always sets
(their `.get` defaults are dead); the last two are optional. -/
structure SharedContext where
  system : String
  system_confidence : ℚ
  severity : String
  issue_type : String
  timeline_text : String
  error_excerpt : String
  runbook_title : Option String := none
  contact_name : Option String := none
deriving Repr, Inhabited

/-- The error-excerpt loop of `build_shared_context`: keep stripped lines
containing an error keyword, stopping after the fifth. -/
def collectErrorLines : List (List Char) → Nat → List (List Char)
  | [], _ => []
  | l :: ls, n =>
    if ["error", "critical", "fail", "exception", "fatal"].any
        (fun w => hasSub (lowerL l) w.data) then
      if n + 1 ≥ 5 then [strip l]
      else strip l :: collectErrorLines ls (n + 1)
    else collectErrorLines ls n

/-- `build_shared_context` (multi_agent.py lines 743–784). -/
def build_shared_context (log_text system : String) (system_confidence : ℚ)
    (severity issue_type : String) (contacts : List Contact)
    (solutions : List Solution) (timeline : List TimelineEvent) : SharedContext :=
  let timeline_lines := (timeline.take 15).map fun ev =>
    "  " ++ ev.timestamp.getD "?" ++ " " ++ ev.icon.getD "" ++ " [" ++
    ev.component.getD "?" ++ "] " ++ ev.message.getD ""
  let timeline_text :=
    if timeline_lines.isEmpty then "  (no timeline events)"
    else joinWith "\n" timeline_lines
  let error_lines := collectErrorLines (splitAnyGo (· = '\n') log_text.data []) 0
  let error_excerpt :=
    if error_lines.isEmpty then pyTake 400 log_text
    else joinWith "\n" (error_lines.map String.mk)
  { system := system, system_confidence := system_confidence,
    severity := severity, issue_type := issue_type,
    timeline_text := timeline_text, error_excerpt := error_excerpt,
    runbook_title := (solutions.head?).map (·.title),
    contact_name := (contacts.head?).map (fun c => c.name ++ " (" ++ c.role ++ ")") }

/-! ## Prompt builders

Verbatim translations of the f-string templates (multi_agent.py lines
528–705 and 367–479).  The `ctx.get(key, default)` reads target keys that
`build_shared_context` always sets, so they are plain field reads here. -/

/-- `build_root_cause_prompt` (lines 528–554). -/
def build_root_cause_prompt (ctx : SharedContext) : String :=
  "You are a Root Cause Analysis expert. Analyze this incident and identify the PRIMARY trigger.\n\nINCIDENT DATA:\nSystem: " ++
  ctx.system ++
  "\nSeverity: " ++
  ctx.severity ++
  "\nIssue Type: " ++
  ctx.issue_type ++
  "\n\nTIMELINE:\n" ++
  ctx.timeline_text ++
  "\n\nERROR EXCERPT:\n" ++
  ctx.error_excerpt ++
  "\n\nYOUR TASK:\nIdentify what STARTED this chain of events. Return EXACTLY this structure:\n\nSYSTEM: [Which system/server is affected - be specific]\nTRIGGER: [The first event that started everything]\nCHAIN: [Event1] ‚Üí [Event2] ‚Üí [Event3] ‚Üí [Final symptom]\nCONFIDENCE: [0-100]\nREASONING: [Why you believe this is the root cause]\n\nFocus on the FIRST event in the chain, not just symptoms.\n"

/-- `build_impact_prompt` (lines 557–590). -/
def build_impact_prompt (ctx : SharedContext) : String :=
  "You are an Impact Assessment expert. Analyze the scope and severity of this incident.\n\nINCIDENT DATA:\nSystem: " ++
  ctx.system ++
  "\nSeverity: " ++
  ctx.severity ++
  "\nIssue Type: " ++
  ctx.issue_type ++
  "\n\nTIMELINE:\n" ++
  ctx.timeline_text ++
  "\n\nERROR EXCERPT:\n" ++
  ctx.error_excerpt ++
  "\n\nYOUR TASK:\nAssess the full impact. Return EXACTLY this structure (be CONCISE):\n\nPRIMARY SYSTEM: [Main system affected]\nAFFECTED SYSTEMS: [System1], [System2], [System3]\nUSER IMPACT: [How many users affected? What can't they do?]\nESTIMATED DURATION: [How long will this last?]\nFINANCIAL IMPACT: [Single concise estimate]\nSEVERITY JUSTIFICATION: [Brief explanation of severity level]\n\nFINANCIAL IMPACT GUIDELINES:\n- Look for explicit costs in logs first\n- If not found, estimate based on: 10k+ users = $500k-$1M, 1k-10k users = $50k-$500k, 100-1k users = $5k-$50k\n- Format: \"$X-$Y estimated (reason)\" or \"Unknown - insufficient data\"\n- Keep it to ONE LINE - no calculation steps, no work shown\n\nBe specific but CONCISE. No repetition. No verbose explanations.\n"

/-- `build_actions_prompt` (lines 593–633): the base context plus, in staged
mode, the "OTHER AGENTS FOUND" digest (appended only when the digest string
is truthy). -/
def build_actions_prompt (ctx : SharedContext)
    (agent_context : Option String := none) : String :=
  let base_context :=
    "INCIDENT DATA:\nSystem: " ++
    ctx.system ++
    "\nSeverity: " ++
    ctx.severity ++
    "\nIssue Type: " ++
    ctx.issue_type ++
    "\n\nTIMELINE:\n" ++
    ctx.timeline_text ++
    "\n\nERROR EXCERPT:\n" ++
    ctx.error_excerpt
  let base_context :=
    match agent_context with
    | some s => if s ≠ "" then base_context ++ "\n\nOTHER AGENTS FOUND:\n" ++ s else base_context
    | none => base_context
  "You are an Incident Response expert. Recommend specific actions to resolve this incident.\n\n" ++
  base_context ++
  "\n\nYOUR TASK:\nProvide actionable steps in 3 phases. Return EXACTLY this structure:\n\nTARGET SYSTEM: [Which system needs action]\nIMMEDIATE: [Do RIGHT NOW - within 5 minutes]\n- [Specific action 1]\n- [Specific action 2]\n\nSHORT-TERM: [Next 1-2 hours]\n- [Action 1]\n- [Action 2]\n\nPREVENTIVE: [After incident resolved]\n- [Prevention 1]\n- [Prevention 2]\n\nROLLBACK PLAN: [How to undo if things get worse]\n\nBe specific - include commands, contacts, or tools where applicable.\n"

/-- KB search results as the caller (rag_engine.py) provides them: three
lists of JSON-object records (dicts). -/
structure KBSearchResults where
  contacts : List (List (String × JVal)) := []
  runbooks : List (List (String × JVal)) := []
  past_incidents : List (List (String × JVal)) := []
deriving Inhabited

/-- `dict.get(k, d)` rendered as a string (f-string interpolation). -/
def objGetStr (fs : List (String × JVal)) (k d : String) : String :=
  match jget fs k with
  | some v => pyStrJ v
  | none => d

/-- Python slice `[:n]` on a JSON value (str or list; other types would
raise `TypeError` and are left unchanged, unreached by the source's
callers). -/
def jSliceStr (v : JVal) (n : Nat) : JVal :=
  match v with
  | .str s => .str (pyTake n s)
  | .arr xs => .arr (xs.take n)
  | other => other

/-- `build_knowledge_prompt` (lines 636–705). -/
def build_knowledge_prompt (ctx : SharedContext) (kb_results : KBSearchResults) : String :=
  let contacts_text :=
    if kb_results.contacts.isEmpty then "No contacts found"
    else joinWith "\n" ((kb_results.contacts.take 5).map (fun c =>
      "- " ++ objGetStr c "name" "Unknown" ++ " (" ++ objGetStr c "role" "Unknown" ++
      ") - " ++ objGetStr c "team" "Unknown"))
  let runbooks_text :=
    if kb_results.runbooks.isEmpty then "No runbooks found"
    else joinWith "\n" ((kb_results.runbooks.take 3).map (fun r =>
      "- " ++ objGetStr r "title" "Unknown" ++ " (Owner: " ++ objGetStr r "owner" "Unknown" ++ ")"))
  let incidents_text :=
    if kb_results.past_incidents.isEmpty then "No past incidents found"
    else joinWith "\n" ((kb_results.past_incidents.take 3).map (fun i =>
      "- " ++ objGetStr i "id" "Unknown" ++ ": " ++
      pyStrJ (jSliceStr ((jget i "description").getD (.str "No description")) 100)))
  "You are a Knowledge Base Synthesis Agent. Analyze these KB search results and provide the MOST RELEVANT suggestions.\n\nINCIDENT CONTEXT:\nSystem: " ++
  ctx.system ++
  "\nSeverity: " ++
  ctx.severity ++
  "\nIssue: " ++
  ctx.issue_type ++
  "\n\nERROR EXCERPT:\n" ++
  pyTake 500 ctx.error_excerpt ++
  "\n\nKNOWLEDGE BASE RESULTS:\n\nContacts Found (" ++
  toString kb_results.contacts.length ++
  "):\n" ++
  contacts_text ++
  "\n\nRunbooks Found (" ++
  toString kb_results.runbooks.length ++
  "):\n" ++
  runbooks_text ++
  "\n\nPast Incidents (" ++
  toString kb_results.past_incidents.length ++
  "):\n" ++
  incidents_text ++
  "\n\nYOUR TASK:\nSynthesize this KB data and return a JSON object with your SUGGESTIONS (not facts):\n\n\x7b\n    \"suggested_system\": \"System name based on KB evidence\",\n    \"confidence\": 0.85,\n    \"primary_contact\": \x7b\"name\": \"\", \"role\": \"\", \"email\": \"\", \"team\": \"\"\x7d,\n    \"backup_contacts\": [\x7b\"name\": \"\", \"role\": \"\"\x7d],\n    \"best_runbook\": \x7b\"title\": \"\", \"owner\": \"\", \"steps_preview\": \"First 3 steps...\"\x7d,\n    \"alternative_runbooks\": [],\n    \"similar_incidents\": [\n        \x7b\"id\": \"\", \"similarity\": 0.89, \"resolution_summary\": \"\", \"cost\": \"\"\x7d\n    ],\n    \"financial_context\": \x7b\n        \"historical_costs\": [\"$X for incident Y\"],\n        \"estimated_range\": \"$X - $Y\"\n    \x7d,\n    \"reasoning\": \"Why these KB items are relevant...\",\n    \"kb_sources_used\": " ++
  toString (kb_results.contacts.length + kb_results.runbooks.length + kb_results.past_incidents.length) ++
  "\n\x7d\n\nIMPORTANT: These are SUGGESTIONS to be validated by other agents, NOT definitive facts.\nReturn valid JSON only.\n"

/-- `build_consistency_prompt_v2` (lines 367–479). -/
def build_consistency_prompt_v2 (rc : RootCauseOutput) (imp : ImpactOutput)
    (act : ActionsOutput) (kb : KnowledgeOutput) : String :=
  let rc_text :=
    "ROOT CAUSE AGENT says:\n  Identified System: " ++
    rc.identified_system ++
    "\n  Trigger: " ++
    rc.trigger ++
    "\n  Causal Chain: " ++
    joinWith " ‚Üí " rc.causal_chain ++
    "\n  Confidence: " ++
    toString rc.confidence ++
    "%\n  Reasoning: " ++
    pyTake 200 rc.reasoning ++
    "..."
  let imp_text :=
    "IMPACT AGENT says:\n  Primary System: " ++
    imp.primary_system ++
    "\n  Affected Systems: " ++
    joinWith ", " imp.affected_systems ++
    "\n  User Impact: " ++
    imp.user_impact ++
    "\n  Financial Impact: " ++
    imp.financial_impact ++
    "\n  Severity: " ++
    pyTake 100 imp.severity_justification ++
    "..."
  let act_text :=
    "ACTIONS AGENT says:\n  Target System: " ++
    act.target_system ++
    "\n  Immediate Actions: " ++
    toString act.immediate.length ++
    " steps\n  First Action: " ++
    (match act.immediate with | a :: _ => a | [] => "None") ++
    "\n  Rollback: " ++
    pyTake 100 act.rollback_plan ++
    "..."
  let kb_text :=
    "\nKNOWLEDGE BASE (REFERENCE ONLY - NOT COMPARED):\n  System: " ++
    pyStrJ kb.suggested_system ++
    " (confidence: " ++
    formatPercent0 kb.confidence ++
    ")\n  Primary Contact: " ++
    jvalGetStr kb.primary_contact "name" "Unknown" ++
    " (" ++
    jvalGetStr kb.primary_contact "role" "Unknown" ++
    ")\n  Best Runbook: " ++
    jvalGetStr kb.best_runbook "title" "Not found" ++
    "\n  Similar Incidents: " ++
    toString (jLen kb.similar_incidents) ++
    " found"
  let analysis_summary := joinWith "\n\n" [rc_text, imp_text, act_text]
  "You are a consistency validator for a multi-agent incident response system.\n\nIMPORTANT: Only compare the 3 ANALYSIS agents (Root Cause, Impact, Actions) with each other.\nThe Knowledge Base provides company context and should NOT be compared to analysis agents.\n\nANALYSIS AGENTS TO COMPARE:\n" ++
  analysis_summary ++
  "\n\n" ++
  kb_text ++
  "\n\nYOUR TASK:\nCompare ONLY the 3 analysis agents and classify conflicts into TWO types:\n\n1. FACTUAL CONFLICTS - Objective facts where agents disagree (SERIOUS)\n   Examples: Different system IDs, mismatched severity, actions targeting wrong system\n   \n2. INTERPRETATION CONFLICTS - Subjective perspectives (EXPECTED)\n   Examples: Different root cause theories, different action priorities\n\nCRITICAL FORMATTING RULES:\n- If NO conflicts exist in a category, output ONLY the header with NO text below it\n- DO NOT write \"None found\", \"No conflicts\", or any explanatory text\n- Empty sections should look like: \"FACTUAL CONFLICTS:\n\n\" (header with blank lines)\n\nAnalyze and return EXACTLY this structure:\n\nFACTUAL CONFLICTS:\n- [Specific disagreement 1]\n- [Specific disagreement 2]\n\nINTERPRETATION CONFLICTS:\n- [Subjective difference 1]\n- [Subjective difference 2]\n\nAGREEMENTS:\n- [What all agents agree on]\n\nQUALITY ASSESSMENT:\n[HIGH if 0 factual conflicts / MEDIUM if 1-2 factual OR many interpretation / LOW if 3+ factual]\n\nRECOMMENDATION:\n[What engineer should focus on - prioritize factual conflicts]\n\nEXAMPLE - When NO conflicts exist:\n\nFACTUAL CONFLICTS:\n\nINTERPRETATION CONFLICTS:\n\nAGREEMENTS:\n- All agents agree on Server_A as affected system\n- All agents identify connection pool exhaustion as root cause\n\nQUALITY ASSESSMENT:\nHIGH - Perfect agent agreement on all objective facts\n\nRECOMMENDATION:\nProceed with confidence - all agents aligned on system and cause\n"

/-- `build_consistency_prompt_v2`, faithfully fallible.  The knowledge
record's fields hold whatever the decoded JSON supplied, and the prompt's
f-string performs `kb.primary_contact.get('name', …)`, then
`kb.primary_contact.get('role', …)`, then `kb.best_runbook.get('title',
…)`, then `len(kb.similar_incidents)` — in that evaluation order — each of
which raises on an ill-shaped value, outside any handler.  On the success
slice the getters agree with the total ones (`jvalGetStrE_agrees`,
`jLenE_agrees`), so the rendered prompt is the total builder's. -/
def build_consistency_prompt_v2E (rc : RootCauseOutput) (imp : ImpactOutput)
    (act : ActionsOutput) (kb : KnowledgeOutput) : Except PyErr String :=
  match jvalGetStrE kb.primary_contact "name" "Unknown" with
  | .error e => .error e
  | .ok _ =>
    match jvalGetStrE kb.primary_contact "role" "Unknown" with
    | .error e => .error e
    | .ok _ =>
      match jvalGetStrE kb.best_runbook "title" "Not found" with
      | .error e => .error e
      | .ok _ =>
        match jLenE kb.similar_incidents with
        | .error e => .error e
        | .ok _ => .ok (build_consistency_prompt_v2 rc imp act kb)

/-- The shapes on which the consistency prompt's knowledge accesses are all
defined: `primary_contact` and `best_runbook` must be decoded objects,
`similar_incidents` must be sized. -/
def kbWellShaped (kb : KnowledgeOutput) : Bool :=
  isObjJ kb.primary_contact && isObjJ kb.best_runbook &&
    isSizedJ kb.similar_incidents

/-- Wherever the fallible getter succeeds, the total one computes the same
string. -/
theorem jvalGetStrE_agrees (v : JVal) (k d s : String)
    (h : jvalGetStrE v k d = .ok s) : jvalGetStr v k d = s := by
  cases v <;> first
    | exact Except.ok.inj h
    | exact absurd h (by simp [jvalGetStrE])

/-- Wherever the fallible `len` succeeds, the total one computes the same
number. -/
theorem jLenE_agrees (v : JVal) (n : Nat) (h : jLenE v = .ok n) :
    jLen v = n := by
  cases v <;> first
    | exact Except.ok.inj h
    | exact absurd h (by simp [jLenE])

/-- On a decoded object the fallible getter succeeds with the total one's
value. -/
theorem jvalGetStrE_of_isObj (v : JVal) (k d : String)
    (h : isObjJ v = true) : jvalGetStrE v k d = .ok (jvalGetStr v k d) := by
  cases v <;> first | rfl | simp [isObjJ] at h

/-- On a sized decoded value the fallible `len` succeeds with the total
one's value. -/
theorem jLenE_of_isSized (v : JVal) (h : isSizedJ v = true) :
    jLenE v = .ok (jLen v) := by
  cases v <;> first | rfl | simp [isSizedJ] at h

/-- On a well-shaped knowledge record the fallible prompt builder succeeds
and renders the total builder's prompt. -/
theorem build_consistency_prompt_v2E_ok (rc : RootCauseOutput)
    (imp : ImpactOutput) (act : ActionsOutput) (kb : KnowledgeOutput)
    (h : kbWellShaped kb = true) :
    build_consistency_prompt_v2E rc imp act kb =
      .ok (build_consistency_prompt_v2 rc imp act kb) := by
  obtain ⟨⟨h1, h2⟩, h3⟩ : (isObjJ kb.primary_contact = true ∧
      isObjJ kb.best_runbook = true) ∧ isSizedJ kb.similar_incidents = true := by
    simpa [kbWellShaped, Bool.and_eq_true] using h
  unfold build_consistency_prompt_v2E
  rw [jvalGetStrE_of_isObj _ _ _ h1, jvalGetStrE_of_isObj _ _ _ h1,
      jvalGetStrE_of_isObj _ _ _ h2, jLenE_of_isSized _ h3]

/-! ## Agent executor and orchestrator -/

/-- The abstracted completion capability:
`(prompt, max_tokens, temperature) → generated text or null`.  A callable
that *raises* is treated by the executor like a null response except for the
attached message; the claims only exercise the null/empty path. -/
abbrev LlmCallable := String → Nat → ℚ → Option String

/-- `parse_root_cause` in the executor's uniform fallible shape (the parser
itself never raises). -/
def parseRootCauseE (s : String) : Except PyErr RootCauseOutput := .ok (parse_root_cause s)

/-- `parse_impact`, executor shape. -/
def parseImpactE (s : String) : Except PyErr ImpactOutput := .ok (parse_impact s)

/-- `parse_actions`, executor shape. -/
def parseActionsE (s : String) : Except PyErr ActionsOutput := .ok (parse_actions s)

/-- `parse_consistency_v2`, executor shape. -/
def parseConsistencyE (s : String) : Except PyErr ConsistencyOutput := .ok (parse_consistency_v2 s)

/-- The value `parser("")` used by the executor's failure paths.  All five
parsers return their zero record on `""`; the `default` arm is unreachable
and only keeps the function total. -/
def parseEmpty [Inhabited α] (parser : String → Except PyErr α) : α :=
  match parser "" with
  | .ok z => z
  | .error _ => default

/-- Result tuple of one agent execution:
`(role name, parsed output, elapsed seconds, optional error string)`. -/
structure AgentRun (α : Type) where
  name : String
  output : α
  elapsed : ℚ
  err : Option String
deriving Repr

/-- `_run_agent` (multi_agent.py lines 712–736): invoke the completion
capability; an empty/null response yields the zero output and the error
note `"Empty response from LLM"`; an exception from the parser is caught
and converted to the zero output plus the exception text.  Elapsed time is
modelled as 0 (wall-clock is outside the embedding); temperature is the
source's constant 0.2. -/
def _run_agent [Inhabited α] (name : String) (prompt : String) (llm : LlmCallable)
    (parser : String → Except PyErr α) (max_tokens : Nat := 450) : AgentRun α :=
  match llm prompt max_tokens (mkRat 1 5) with
  | none => ⟨name, parseEmpty parser, 0, some "Empty response from LLM"⟩
  | some raw =>
    if raw = "" then ⟨name, parseEmpty parser, 0, some "Empty response from LLM"⟩
    else
      match parser raw with
      | .ok out => ⟨name, out, 0, none⟩
      | .error e => ⟨name, parseEmpty parser, 0, some (pyErrMsg e)⟩

/-- The aggregate result (`MultiAgentResult` dataclass). -/
structure MultiAgentResult where
  root_cause : RootCauseOutput := {}
  impact : ImpactOutput := {}
  actions : ActionsOutput := {}
  knowledge : KnowledgeOutput := {}
  consistency : ConsistencyOutput := {}
  mode_used : String := ""
  total_time : ℚ := 0
  agent_times : List (String × ℚ) := []
  errors : List String := []
deriving Repr, Inhabited

/-- The "what other roles found" digest assembled between the two phases of
the staged plan (run_multi_agent_v2 lines 864–884), factored out so that
theorems can name it.  `none` when no part is available; the actions
builder treats `none` and `""` alike, mirroring Python truthiness of the
optional argument. -/
def build_agent_context (rc : RootCauseOutput) (imp : ImpactOutput)
    (kb : KnowledgeOutput) : Option String :=
  let parts : List String := []
  let parts :=
    if jTruthy kb.suggested_system then
      parts ++ ["KB Suggests: " ++ pyStrJ kb.suggested_system ++
        " (confidence: " ++ formatPercent0 kb.confidence ++ ")"]
    else parts
  let parts :=
    if rc.trigger ≠ "" then
      (if rc.causal_chain ≠ [] then
        parts ++ ["Root Cause: " ++ rc.trigger] ++
          ["Chain: " ++ joinWith " ‚Üí " rc.causal_chain]
      else parts ++ ["Root Cause: " ++ rc.trigger])
    else parts
  let parts :=
    if imp.user_impact ≠ "" then parts ++ ["Impact: " ++ imp.user_impact] else parts
  let parts :=
    if imp.affected_systems ≠ [] then
      parts ++ ["Affected: " ++ joinWith ", " imp.affected_systems]
    else parts
  if parts.isEmpty then none else some (joinWith "\n" parts)

/-- `run_multi_agent_v2` (multi_agent.py lines 787–949).  Scope notes:
* `kb_search_results` is taken as provided (the only caller passes dicts);
  the source's `None` default would feed raw contact/solution objects into
  `build_knowledge_prompt`, which raises `AttributeError` on any non-empty
  list — that path is dead in the repository and not modelled.
* The two `ThreadPoolExecutor` phases are serialised; all futures are
  joined (`f.result()`) before any subsequent statement, so outputs,
  timings and error lists are exactly those of the source.  Timing values
  are 0 (wall-clock outside the embedding); `logging` is not modelled.
* The mode test `severity == "CRITICAL" and system_confidence >= 0.75`
  is written with `mkRat 3 4 = 0.75`.
* The consistency prompt is built outside any `try`, so in the source an
  ill-shaped decoded knowledge field raises out of the whole run.  This
  total definition collapses that path (it uses the total builder);
  `run_multi_agent_v2E` is the faithful fallible variant, and the two
  agree — `run_multi_agent_v2E = .ok (run_multi_agent_v2 …)` — whenever
  the prompt build succeeds. -/
def run_multi_agent_v2 (log_text system : String) (system_confidence : ℚ)
    (severity issue_type : String) (contacts : List Contact)
    (solutions : List Solution) (timeline : List TimelineEvent)
    (llm : LlmCallable) (kb_search_results : KBSearchResults) : MultiAgentResult :=
  let ctx := build_shared_context log_text system system_confidence severity
    issue_type contacts solutions timeline
  let root_prompt := build_root_cause_prompt ctx
  let impact_prompt := build_impact_prompt ctx
  let knowledge_prompt := build_knowledge_prompt ctx kb_search_results
  let result : MultiAgentResult :=
    if severity = "CRITICAL" ∧ mkRat 3 4 ≤ system_confidence then
      -- PARTIAL SEQUENTIAL: Phase 1 pool (RootCause, Impact, Knowledge), join,
      -- digest, then Phase 2 (Actions).
      let rcR := _run_agent "RootCause" root_prompt llm parseRootCauseE
      let impR := _run_agent "Impact" impact_prompt llm parseImpactE
      let kbR := _run_agent "Knowledge" knowledge_prompt llm parse_knowledge 600
      let agent_context := build_agent_context rcR.output impR.output kbR.output
      let action_prompt := build_actions_prompt ctx agent_context
      let actR := _run_agent "Actions" action_prompt llm parseActionsE
      { root_cause := rcR.output, impact := impR.output,
        actions := actR.output, knowledge := kbR.output,
        mode_used := "partial_sequential",
        agent_times := [("root_cause", rcR.elapsed), ("impact", impR.elapsed),
                        ("knowledge", kbR.elapsed), ("actions", actR.elapsed)],
        errors :=
          (match rcR.err with | some e => ["RootCause: " ++ e] | none => []) ++
          (match impR.err with | some e => ["Impact: " ++ e] | none => []) ++
          (match kbR.err with | some e => ["Knowledge: " ++ e] | none => []) ++
          (match actR.err with | some e => ["Actions: " ++ e] | none => []) }
    else
      -- PARALLEL: all four at once (pool of 4, joined); error entries use the
      -- snake_case futures-dict keys.
      let action_prompt := build_actions_prompt ctx
      let rcR := _run_agent "RootCause" root_prompt llm parseRootCauseE
      let impR := _run_agent "Impact" impact_prompt llm parseImpactE
      let actR := _run_agent "Actions" action_prompt llm parseActionsE
      let kbR := _run_agent "Knowledge" knowledge_prompt llm parse_knowledge 600
      { root_cause := rcR.output, impact := impR.output,
        actions := actR.output, knowledge := kbR.output,
        mode_used := "parallel",
        agent_times := [("root_cause", rcR.elapsed), ("impact", impR.elapsed),
                        ("actions", actR.elapsed), ("knowledge", kbR.elapsed)],
        errors :=
          (match rcR.err with | some e => ["root_cause: " ++ e] | none => []) ++
          (match impR.err with | some e => ["impact: " ++ e] | none => []) ++
          (match actR.err with | some e => ["actions: " ++ e] | none => []) ++
          (match kbR.err with | some e => ["knowledge: " ++ e] | none => []) }
  -- Consistency step: always runs, after all four roles.
  let consR := _run_agent "Consistency"
    (build_consistency_prompt_v2 result.root_cause result.impact result.actions result.knowledge)
    llm parseConsistencyE 400
  { result with
    consistency := consR.output,
    agent_times := result.agent_times ++ [("consistency", consR.elapsed)],
    errors := result.errors ++
      (match consR.err with | some e => ["Consistency: " ++ e] | none => []) }

/-- `run_multi_agent_v2`, faithfully fallible: identical to the total model
through the four role executions, but the consistency prompt is built with
`build_consistency_prompt_v2E` — in the source that call sits outside any
`try`, so its `AttributeError`/`TypeError` on an ill-shaped decoded
knowledge field propagates to the caller and no result is returned. -/
def run_multi_agent_v2E (log_text system : String) (system_confidence : ℚ)
    (severity issue_type : String) (contacts : List Contact)
    (solutions : List Solution) (timeline : List TimelineEvent)
    (llm : LlmCallable) (kb_search_results : KBSearchResults) :
    Except PyErr MultiAgentResult :=
  let ctx := build_shared_context log_text system system_confidence severity
    issue_type contacts solutions timeline
  let root_prompt := build_root_cause_prompt ctx
  let impact_prompt := build_impact_prompt ctx
  let knowledge_prompt := build_knowledge_prompt ctx kb_search_results
  let result : MultiAgentResult :=
    if severity = "CRITICAL" ∧ mkRat 3 4 ≤ system_confidence then
      let rcR := _run_agent "RootCause" root_prompt llm parseRootCauseE
      let impR := _run_agent "Impact" impact_prompt llm parseImpactE
      let kbR := _run_agent "Knowledge" knowledge_prompt llm parse_knowledge 600
      let agent_context := build_agent_context rcR.output impR.output kbR.output
      let action_prompt := build_actions_prompt ctx agent_context
      let actR := _run_agent "Actions" action_prompt llm parseActionsE
      { root_cause := rcR.output, impact := impR.output,
        actions := actR.output, knowledge := kbR.output,
        mode_used := "partial_sequential",
        agent_times := [("root_cause", rcR.elapsed), ("impact", impR.elapsed),
                        ("knowledge", kbR.elapsed), ("actions", actR.elapsed)],
        errors :=
          (match rcR.err with | some e => ["RootCause: " ++ e] | none => []) ++
          (match impR.err with | some e => ["Impact: " ++ e] | none => []) ++
          (match kbR.err with | some e => ["Knowledge: " ++ e] | none => []) ++
          (match actR.err with | some e => ["Actions: " ++ e] | none => []) }
    else
      let action_prompt := build_actions_prompt ctx
      let rcR := _run_agent "RootCause" root_prompt llm parseRootCauseE
      let impR := _run_agent "Impact" impact_prompt llm parseImpactE
      let actR := _run_agent "Actions" action_prompt llm parseActionsE
      let kbR := _run_agent "Knowledge" knowledge_prompt llm parse_knowledge 600
      { root_cause := rcR.output, impact := impR.output,
        actions := actR.output, knowledge := kbR.output,
        mode_used := "parallel",
        agent_times := [("root_cause", rcR.elapsed), ("impact", impR.elapsed),
                        ("actions", actR.elapsed), ("knowledge", kbR.elapsed)],
        errors :=
          (match rcR.err with | some e => ["root_cause: " ++ e] | none => []) ++
          (match impR.err with | some e => ["impact: " ++ e] | none => []) ++
          (match actR.err with | some e => ["actions: " ++ e] | none => []) ++
          (match kbR.err with | some e => ["knowledge: " ++ e] | none => []) }
  match build_consistency_prompt_v2E result.root_cause result.impact
      result.actions result.knowledge with
  | .error e => .error e
  | .ok consistency_prompt =>
    let consR := _run_agent "Consistency" consistency_prompt llm parseConsistencyE 400
    .ok { result with
          consistency := consR.output,
          agent_times := result.agent_times ++ [("consistency", consR.elapsed)],
          errors := result.errors ++
            (match consR.err with | some e => ["Consistency: " ++ e] | none => []) }

/-! ## Role bookkeeping and run characterisations -/

/-- The four concurrently-executed roles. -/
inductive RoleName where
  | rootCause : RoleName
  | impact : RoleName
  | actions : RoleName
  | knowledge : RoleName
deriving Repr, DecidableEq

/-- The snake_case futures-dict keys used for error entries in the parallel
plan. -/
def snakeKey : RoleName → String
  | .rootCause => "root_cause"
  | .impact => "impact"
  | .actions => "actions"
  | .knowledge => "knowledge"

/-- The display role names used for error entries in the staged plan. -/
def displayRole : RoleName → String
  | .rootCause => "RootCause"
  | .impact => "Impact"
  | .actions => "Actions"
  | .knowledge => "Knowledge"

/-- The prompt each role receives in the parallel plan. -/
def parallelPrompt (ctx : SharedContext) (kbr : KBSearchResults) : RoleName → String
  | .rootCause => build_root_cause_prompt ctx
  | .impact => build_impact_prompt ctx
  | .actions => build_actions_prompt ctx
  | .knowledge => build_knowledge_prompt ctx kbr

/-- Per-role token budgets (`_run_agent`'s default 450; 600 for Knowledge). -/
def roleTokens : RoleName → Nat
  | .knowledge => 600
  | _ => 450

/-- Executor behaviour on a null completion. -/
theorem _run_agent_null [Inhabited α] (name prompt : String) (llm : LlmCallable)
    (parser : String → Except PyErr α) (mt : Nat)
    (h : llm prompt mt (mkRat 1 5) = none) :
    _run_agent name prompt llm parser mt =
      ⟨name, parseEmpty parser, 0, some "Empty response from LLM"⟩ := by
  unfold _run_agent
  rw [h]

/-- Executor behaviour on a non-empty, cleanly-parsed completion. -/
theorem _run_agent_ok [Inhabited α] (name prompt : String) (llm : LlmCallable)
    (parser : String → Except PyErr α) (mt : Nat) (raw : String) (out : α)
    (h : llm prompt mt (mkRat 1 5) = some raw) (hne : raw ≠ "")
    (hp : parser raw = .ok out) :
    _run_agent name prompt llm parser mt = ⟨name, out, 0, none⟩ := by
  unfold _run_agent
  rw [h]
  simp only [if_neg hne, hp]

/-- `parser("")` is the zero record, for each of the five parsers. -/
theorem parseEmpty_zero :
    parseEmpty parseRootCauseE = {} ∧ parseEmpty parseImpactE = {} ∧
    parseEmpty parseActionsE = {} ∧ parseEmpty parse_knowledge = {} ∧
    parseEmpty parseConsistencyE = {} :=
  ⟨rfl, rfl, rfl, rfl, rfl⟩

/-- In the parallel plan, the run is exactly: four executor calls on the
four role prompts, then the consistency call on the prompt built from their
outputs, with snake_case error keys. -/
theorem run_parallel_char (log_text system : String) (conf : ℚ)
    (severity issue_type : String) (contacts : List Contact)
    (solutions : List Solution) (timeline : List TimelineEvent)
    (llm : LlmCallable) (kbr : KBSearchResults)
    (hpar : ¬ (severity = "CRITICAL" ∧ mkRat 3 4 ≤ conf)) :
    run_multi_agent_v2 log_text system conf severity issue_type contacts
      solutions timeline llm kbr =
    (let ctx := build_shared_context log_text system conf severity issue_type
       contacts solutions timeline
     let rcR := _run_agent "RootCause" (build_root_cause_prompt ctx) llm parseRootCauseE
     let impR := _run_agent "Impact" (build_impact_prompt ctx) llm parseImpactE
     let actR := _run_agent "Actions" (build_actions_prompt ctx) llm parseActionsE
     let kbR := _run_agent "Knowledge" (build_knowledge_prompt ctx kbr) llm parse_knowledge 600
     let consR := _run_agent "Consistency"
       (build_consistency_prompt_v2 rcR.output impR.output actR.output kbR.output)
       llm parseConsistencyE 400
     { root_cause := rcR.output, impact := impR.output, actions := actR.output,
       knowledge := kbR.output, consistency := consR.output,
       mode_used := "parallel", total_time := 0,
       agent_times := [("root_cause", rcR.elapsed), ("impact", impR.elapsed),
         ("actions", actR.elapsed), ("knowledge", kbR.elapsed),
         ("consistency", consR.elapsed)],
       errors :=
         ((match rcR.err with | some e => ["root_cause: " ++ e] | none => []) ++
          (match impR.err with | some e => ["impact: " ++ e] | none => []) ++
          (match actR.err with | some e => ["actions: " ++ e] | none => []) ++
          (match kbR.err with | some e => ["knowledge: " ++ e] | none => [])) ++
         (match consR.err with | some e => ["Consistency: " ++ e] | none => []) }) := by
  unfold run_multi_agent_v2
  simp only []
  rw [if_neg hpar]
  rfl

/-- The fallible run in the parallel plan: the four executor calls, then
the fallible consistency prompt build — an error there is the run's
result; on success the consistency call completes the record. -/
theorem run_parallel_charE (log_text system : String) (conf : ℚ)
    (severity issue_type : String) (contacts : List Contact)
    (solutions : List Solution) (timeline : List TimelineEvent)
    (llm : LlmCallable) (kbr : KBSearchResults)
    (hpar : ¬ (severity = "CRITICAL" ∧ mkRat 3 4 ≤ conf)) :
    run_multi_agent_v2E log_text system conf severity issue_type contacts
      solutions timeline llm kbr =
    (let ctx := build_shared_context log_text system conf severity issue_type
       contacts solutions timeline
     let rcR := _run_agent "RootCause" (build_root_cause_prompt ctx) llm parseRootCauseE
     let impR := _run_agent "Impact" (build_impact_prompt ctx) llm parseImpactE
     let actR := _run_agent "Actions" (build_actions_prompt ctx) llm parseActionsE
     let kbR := _run_agent "Knowledge" (build_knowledge_prompt ctx kbr) llm parse_knowledge 600
     match build_consistency_prompt_v2E rcR.output impR.output actR.output kbR.output with
     | .error e => .error e
     | .ok cp =>
       let consR := _run_agent "Consistency" cp llm parseConsistencyE 400
       .ok { root_cause := rcR.output, impact := impR.output, actions := actR.output,
             knowledge := kbR.output, consistency := consR.output,
             mode_used := "parallel", total_time := 0,
             agent_times := [("root_cause", rcR.elapsed), ("impact", impR.elapsed),
               ("actions", actR.elapsed), ("knowledge", kbR.elapsed),
               ("consistency", consR.elapsed)],
             errors :=
               ((match rcR.err with | some e => ["root_cause: " ++ e] | none => []) ++
                (match impR.err with | some e => ["impact: " ++ e] | none => []) ++
                (match actR.err with | some e => ["actions: " ++ e] | none => []) ++
                (match kbR.err with | some e => ["knowledge: " ++ e] | none => [])) ++
               (match consR.err with | some e => ["Consistency: " ++ e] | none => []) }) := by
  unfold run_multi_agent_v2E
  simp only []
  rw [if_neg hpar]
  rfl

/-- In the staged plan, the run is exactly: the three Phase-1 executor
calls, a join, the digest, the Phase-2 Actions call on the digest-extended
prompt, then the consistency call, with display-name error keys. -/
theorem run_sequential_char (log_text system : String) (conf : ℚ)
    (severity issue_type : String) (contacts : List Contact)
    (solutions : List Solution) (timeline : List TimelineEvent)
    (llm : LlmCallable) (kbr : KBSearchResults)
    (hseq : severity = "CRITICAL" ∧ mkRat 3 4 ≤ conf) :
    run_multi_agent_v2 log_text system conf severity issue_type contacts
      solutions timeline llm kbr =
    (let ctx := build_shared_context log_text system conf severity issue_type
       contacts solutions timeline
     let rcR := _run_agent "RootCause" (build_root_cause_prompt ctx) llm parseRootCauseE
     let impR := _run_agent "Impact" (build_impact_prompt ctx) llm parseImpactE
     let kbR := _run_agent "Knowledge" (build_knowledge_prompt ctx kbr) llm parse_knowledge 600
     let actR := _run_agent "Actions"
       (build_actions_prompt ctx (build_agent_context rcR.output impR.output kbR.output))
       llm parseActionsE
     let consR := _run_agent "Consistency"
       (build_consistency_prompt_v2 rcR.output impR.output actR.output kbR.output)
       llm parseConsistencyE 400
     { root_cause := rcR.output, impact := impR.output, actions := actR.output,
       knowledge := kbR.output, consistency := consR.output,
       mode_used := "partial_sequential", total_time := 0,
       agent_times := [("root_cause", rcR.elapsed), ("impact", impR.elapsed),
         ("knowledge", kbR.elapsed), ("actions", actR.elapsed),
         ("consistency", consR.elapsed)],
       errors :=
         ((match rcR.err with | some e => ["RootCause: " ++ e] | none => []) ++
          (match impR.err with | some e => ["Impact: " ++ e] | none => []) ++
          (match kbR.err with | some e => ["Knowledge: " ++ e] | none => []) ++
          (match actR.err with | some e => ["Actions: " ++ e] | none => [])) ++
         (match consR.err with | some e => ["Consistency: " ++ e] | none => []) }) := by
  unfold run_multi_agent_v2
  simp only []
  rw [if_pos hseq]
  rfl

/-- The mode field, characterised for all inputs. -/
theorem run_mode_used (log_text system : String) (conf : ℚ)
    (severity issue_type : String) (contacts : List Contact)
    (solutions : List Solution) (timeline : List TimelineEvent)
    (llm : LlmCallable) (kbr : KBSearchResults) :
    (run_multi_agent_v2 log_text system conf severity issue_type contacts
      solutions timeline llm kbr).mode_used =
    (if severity = "CRITICAL" ∧ mkRat 3 4 ≤ conf then "partial_sequential"
     else "parallel") := by
  by_cases h : severity = "CRITICAL" ∧ mkRat 3 4 ≤ conf
  · rw [run_sequential_char _ _ _ _ _ _ _ _ _ _ h, if_pos h]
  · rw [run_parallel_char _ _ _ _ _ _ _ _ _ _ h, if_neg h]

/-! ## Claim C1 — mode selection -/

/-- C1: `run_multi_agent_v2` sets `mode_used` to `"partial_sequential"`
exactly when `severity = "CRITICAL"` and `system_confidence ≥ 0.75`
(`mkRat 3 4`), and to `"parallel"` for every other combination — the
if-characterisation over all inputs is the full boundary description.  In
particular, at CRITICAL severity the mode flips between confidence 0.74 and
0.75. -/
theorem mode_selection_pure (log_text system : String) (conf : ℚ)
    (severity issue_type : String) (contacts : List Contact)
    (solutions : List Solution) (timeline : List TimelineEvent)
    (llm : LlmCallable) (kbr : KBSearchResults) :
    ((run_multi_agent_v2 log_text system conf severity issue_type contacts
        solutions timeline llm kbr).mode_used =
      (if severity = "CRITICAL" ∧ mkRat 3 4 ≤ conf then "partial_sequential"
       else "parallel")) ∧
    mkRat 3 4 = (0.75 : ℚ) ∧ mkRat 74 100 = (0.74 : ℚ) ∧
    ((run_multi_agent_v2 log_text system (mkRat 74 100) "CRITICAL" issue_type
        contacts solutions timeline llm kbr).mode_used = "parallel" ∧
     (run_multi_agent_v2 log_text system (mkRat 3 4) "CRITICAL" issue_type
        contacts solutions timeline llm kbr).mode_used = "partial_sequential") := by
  refine ⟨run_mode_used _ _ _ _ _ _ _ _ _ _,
    by norm_num [Rat.mkRat_eq_div], by norm_num [Rat.mkRat_eq_div], ?_, ?_⟩
  · rw [run_mode_used, if_neg (by decide)]
  · rw [run_mode_used, if_pos (by decide)]

/-! ## Claim C8 — phase ordering in the staged plan -/

/-- A start/completion event of one role's execution. -/
inductive AgentEvent where
  | started : String → AgentEvent
  | completed : String → AgentEvent
deriving Repr, DecidableEq

/-- Execution trace of `run_multi_agent_v2`, mode-determined: each
`_run_agent` call contributes a `started`/`completed` pair at its call
site.  Within a pool phase the tasks run concurrently and their relative
order is unconstrained (serialised here in submission order); across the
join barrier the order is structural — `f.result()` is awaited for *all*
phase futures before any later statement executes, so every Phase-1
completion precedes every Phase-2 event in any admissible interleaving,
which is the property the claim states. -/
def run_multi_agent_v2_events (severity : String) (system_confidence : ℚ) :
    List AgentEvent :=
  if severity = "CRITICAL" ∧ mkRat 3 4 ≤ system_confidence then
    [.started "RootCause", .completed "RootCause",
     .started "Impact", .completed "Impact",
     .started "Knowledge", .completed "Knowledge",
     .started "Actions", .completed "Actions",
     .started "Consistency", .completed "Consistency"]
  else
    [.started "RootCause", .completed "RootCause",
     .started "Impact", .completed "Impact",
     .started "Actions", .completed "Actions",
     .started "Knowledge", .completed "Knowledge",
     .started "Consistency", .completed "Consistency"]

/-- C8: in `partial_sequential` mode, (a) in the execution trace each of
Root-Cause / Impact / Knowledge completes strictly before Actions starts
(their indices are uniquely determined, so this holds in every admissible
interleaving of the Phase-1 pool); and (b) the Actions output is exactly
the executor applied to the prompt that `build_actions_prompt` builds from
the Phase-1 context digest (trigger, causal chain, user impact, affected
systems, KB-suggested system with confidence — `build_agent_context` of the
three joined Phase-1 outputs). -/
theorem phase2_after_phase1_join (log_text system : String) (conf : ℚ)
    (severity issue_type : String) (contacts : List Contact)
    (solutions : List Solution) (timeline : List TimelineEvent)
    (llm : LlmCallable) (kbr : KBSearchResults)
    (hseq : severity = "CRITICAL" ∧ mkRat 3 4 ≤ conf) :
    (∀ role ∈ (["RootCause", "Impact", "Knowledge"] : List String),
      ∃ i j, i < j ∧
        (run_multi_agent_v2_events severity conf).indexOf? (.completed role) = some i ∧
        (run_multi_agent_v2_events severity conf).indexOf? (.started "Actions") = some j) ∧
    (run_multi_agent_v2 log_text system conf severity issue_type contacts
        solutions timeline llm kbr).actions =
      (_run_agent "Actions"
        (build_actions_prompt
          (build_shared_context log_text system conf severity issue_type
            contacts solutions timeline)
          (build_agent_context
            (_run_agent "RootCause"
              (build_root_cause_prompt
                (build_shared_context log_text system conf severity issue_type
                  contacts solutions timeline)) llm parseRootCauseE).output
            (_run_agent "Impact"
              (build_impact_prompt
                (build_shared_context log_text system conf severity issue_type
                  contacts solutions timeline)) llm parseImpactE).output
            (_run_agent "Knowledge"
              (build_knowledge_prompt
                (build_shared_context log_text system conf severity issue_type
                  contacts solutions timeline) kbr) llm parse_knowledge 600).output))
        llm parseActionsE).output := by
  constructor
  · intro role hrole
    rw [show run_multi_agent_v2_events severity conf =
      [.started "RootCause", .completed "RootCause",
       .started "Impact", .completed "Impact",
       .started "Knowledge", .completed "Knowledge",
       .started "Actions", .completed "Actions",
       .started "Consistency", .completed "Consistency"] from
      by unfold run_multi_agent_v2_events; rw [if_pos hseq]]
    simp only [List.mem_cons, List.not_mem_nil, or_false] at hrole
    rcases hrole with h | h | h
    · subst h; exact ⟨1, 6, by decide, by rfl, by rfl⟩
    · subst h; exact ⟨3, 6, by decide, by rfl, by rfl⟩
    · subst h; exact ⟨5, 6, by decide, by rfl, by rfl⟩
  · rw [run_sequential_char _ _ _ _ _ _ _ _ _ _ hseq]

/-- C8 witness: concrete staged run (CRITICAL severity, confidence 0.9,
completions all null) — the trace ordering and the Actions data-flow
equation, instantiated. -/
theorem phase2_after_phase1_join_witness :
    ("CRITICAL" = "CRITICAL" ∧ mkRat 3 4 ≤ mkRat 9 10) ∧
    ((∀ role ∈ (["RootCause", "Impact", "Knowledge"] : List String),
      ∃ i j, i < j ∧
        (run_multi_agent_v2_events "CRITICAL" (mkRat 9 10)).indexOf? (.completed role) = some i ∧
        (run_multi_agent_v2_events "CRITICAL" (mkRat 9 10)).indexOf? (.started "Actions") = some j) ∧
    (run_multi_agent_v2 "" "S" (mkRat 9 10) "CRITICAL" "t" [] [] []
        (fun _ _ _ => none) {}).actions =
      (_run_agent "Actions"
        (build_actions_prompt
          (build_shared_context "" "S" (mkRat 9 10) "CRITICAL" "t" [] [] [])
          (build_agent_context
            (_run_agent "RootCause"
              (build_root_cause_prompt
                (build_shared_context "" "S" (mkRat 9 10) "CRITICAL" "t" [] [] []))
              (fun _ _ _ => none) parseRootCauseE).output
            (_run_agent "Impact"
              (build_impact_prompt
                (build_shared_context "" "S" (mkRat 9 10) "CRITICAL" "t" [] [] []))
              (fun _ _ _ => none) parseImpactE).output
            (_run_agent "Knowledge"
              (build_knowledge_prompt
                (build_shared_context "" "S" (mkRat 9 10) "CRITICAL" "t" [] [] []) {})
              (fun _ _ _ => none) parse_knowledge 600).output))
        (fun _ _ _ => none) parseActionsE).output) :=
  ⟨⟨rfl, by decide⟩,
   phase2_after_phase1_join "" "S" (mkRat 9 10) "CRITICAL" "t" [] [] []
     (fun _ _ _ => none) {} ⟨rfl, by decide⟩⟩

/-! ## Claim C7 — per-role failure isolation (parallel plan) -/

/-- C7 (amended): in the parallel plan, if exactly one role's completion
returns null (all other roles and the consistency call succeeding with
non-empty, cleanly-parsed text), and the surviving knowledge output is
well-shaped for the consistency prompt's accesses (`kbWellShaped` — dict
`primary_contact`/`best_runbook`, sized `similar_incidents`), then the run
returns a complete result with no exception — the faithful fallible run
equals `.ok` of the total model — in which the failing role's output is its
zero record, `errors` contains exactly one entry naming that role by its
snake_case key, and the other three roles' outputs are exactly the parses
of their responses.  The executor is the isolation boundary for the five
role calls; the well-shapedness proviso cannot be dropped: the consistency
prompt build sits outside it (`role_failure_crash_cex`). -/
theorem role_failure_isolated (log_text system : String) (conf : ℚ)
    (severity issue_type : String) (contacts : List Contact)
    (solutions : List Solution) (timeline : List TimelineEvent)
    (llm : LlmCallable) (kbr : KBSearchResults)
    (hpar : ¬ (severity = "CRITICAL" ∧ mkRat 3 4 ≤ conf))
    (r : RoleName) (resp : RoleName → String) (kOut : KnowledgeOutput)
    (rawCons : String)
    (hfail : llm (parallelPrompt (build_shared_context log_text system conf
        severity issue_type contacts solutions timeline) kbr r)
      (roleTokens r) (mkRat 1 5) = none)
    (hok : ∀ r' : RoleName, r' ≠ r →
      llm (parallelPrompt (build_shared_context log_text system conf severity
          issue_type contacts solutions timeline) kbr r')
        (roleTokens r') (mkRat 1 5) = some (resp r') ∧ resp r' ≠ "")
    (hkb : parse_knowledge (resp .knowledge) = .ok kOut)
    (hwf : kbWellShaped kOut = true)
    (hcons : llm (build_consistency_prompt_v2
        (if r = .rootCause then {} else parse_root_cause (resp .rootCause))
        (if r = .impact then {} else parse_impact (resp .impact))
        (if r = .actions then {} else parse_actions (resp .actions))
        (if r = .knowledge then {} else kOut)) 400 (mkRat 1 5) = some rawCons)
    (hconsNE : rawCons ≠ "") :
    run_multi_agent_v2E log_text system conf severity issue_type contacts
        solutions timeline llm kbr =
      .ok (run_multi_agent_v2 log_text system conf severity issue_type contacts
        solutions timeline llm kbr) ∧
    (run_multi_agent_v2 log_text system conf severity issue_type contacts
        solutions timeline llm kbr).root_cause =
      (if r = .rootCause then {} else parse_root_cause (resp .rootCause)) ∧
    (run_multi_agent_v2 log_text system conf severity issue_type contacts
        solutions timeline llm kbr).impact =
      (if r = .impact then {} else parse_impact (resp .impact)) ∧
    (run_multi_agent_v2 log_text system conf severity issue_type contacts
        solutions timeline llm kbr).actions =
      (if r = .actions then {} else parse_actions (resp .actions)) ∧
    (run_multi_agent_v2 log_text system conf severity issue_type contacts
        solutions timeline llm kbr).knowledge =
      (if r = .knowledge then {} else kOut) ∧
    (run_multi_agent_v2 log_text system conf severity issue_type contacts
        solutions timeline llm kbr).consistency = parse_consistency_v2 rawCons ∧
    (run_multi_agent_v2 log_text system conf severity issue_type contacts
        solutions timeline llm kbr).errors =
      [snakeKey r ++ ": Empty response from LLM"] ∧
    (run_multi_agent_v2 log_text system conf severity issue_type contacts
        solutions timeline llm kbr).mode_used = "parallel" := by
  rw [run_parallel_charE _ _ _ _ _ _ _ _ _ _ hpar,
      run_parallel_char _ _ _ _ _ _ _ _ _ _ hpar]
  set ctx := build_shared_context log_text system conf severity issue_type
    contacts solutions timeline with hctx
  cases r with
  | rootCause =>
    obtain ⟨hI, hIne⟩ := hok .impact (by decide)
    obtain ⟨hA, hAne⟩ := hok .actions (by decide)
    obtain ⟨hK, hKne⟩ := hok .knowledge (by decide)
    have hf : llm (build_root_cause_prompt ctx) 450 (mkRat 1 5) = none := hfail
    have hI' : llm (build_impact_prompt ctx) 450 (mkRat 1 5) = some (resp .impact) := hI
    have hA' : llm (build_actions_prompt ctx) 450 (mkRat 1 5) = some (resp .actions) := hA
    have hK' : llm (build_knowledge_prompt ctx kbr) 600 (mkRat 1 5) = some (resp .knowledge) := hK
    have hcons' : llm (build_consistency_prompt_v2 (parseEmpty parseRootCauseE)
        (parse_impact (resp .impact)) (parse_actions (resp .actions)) kOut)
        400 (mkRat 1 5) = some rawCons := hcons
    simp only []
    rw [_run_agent_null "RootCause" _ llm parseRootCauseE 450 hf,
        _run_agent_ok "Impact" _ llm parseImpactE 450 _ _ hI' hIne rfl,
        _run_agent_ok "Actions" _ llm parseActionsE 450 _ _ hA' hAne rfl,
        _run_agent_ok "Knowledge" _ llm parse_knowledge 600 _ _ hK' hKne hkb]
    dsimp only
    rw [build_consistency_prompt_v2E_ok _ _ _ _ hwf]
    simp only []
    rw [_run_agent_ok "Consistency" _ llm parseConsistencyE 400 _ _ hcons' hconsNE rfl]
    exact ⟨trivial, rfl, rfl, rfl, rfl, rfl, rfl, trivial⟩
  | impact =>
    obtain ⟨hR, hRne⟩ := hok .rootCause (by decide)
    obtain ⟨hA, hAne⟩ := hok .actions (by decide)
    obtain ⟨hK, hKne⟩ := hok .knowledge (by decide)
    have hf : llm (build_impact_prompt ctx) 450 (mkRat 1 5) = none := hfail
    have hR' : llm (build_root_cause_prompt ctx) 450 (mkRat 1 5) = some (resp .rootCause) := hR
    have hA' : llm (build_actions_prompt ctx) 450 (mkRat 1 5) = some (resp .actions) := hA
    have hK' : llm (build_knowledge_prompt ctx kbr) 600 (mkRat 1 5) = some (resp .knowledge) := hK
    have hcons' : llm (build_consistency_prompt_v2 (parse_root_cause (resp .rootCause))
        (parseEmpty parseImpactE) (parse_actions (resp .actions)) kOut)
        400 (mkRat 1 5) = some rawCons := hcons
    simp only []
    rw [_run_agent_null "Impact" _ llm parseImpactE 450 hf,
        _run_agent_ok "RootCause" _ llm parseRootCauseE 450 _ _ hR' hRne rfl,
        _run_agent_ok "Actions" _ llm parseActionsE 450 _ _ hA' hAne rfl,
        _run_agent_ok "Knowledge" _ llm parse_knowledge 600 _ _ hK' hKne hkb]
    dsimp only
    rw [build_consistency_prompt_v2E_ok _ _ _ _ hwf]
    simp only []
    rw [_run_agent_ok "Consistency" _ llm parseConsistencyE 400 _ _ hcons' hconsNE rfl]
    exact ⟨trivial, rfl, rfl, rfl, rfl, rfl, rfl, trivial⟩
  | actions =>
    obtain ⟨hR, hRne⟩ := hok .rootCause (by decide)
    obtain ⟨hI, hIne⟩ := hok .impact (by decide)
    obtain ⟨hK, hKne⟩ := hok .knowledge (by decide)
    have hf : llm (build_actions_prompt ctx) 450 (mkRat 1 5) = none := hfail
    have hR' : llm (build_root_cause_prompt ctx) 450 (mkRat 1 5) = some (resp .rootCause) := hR
    have hI' : llm (build_impact_prompt ctx) 450 (mkRat 1 5) = some (resp .impact) := hI
    have hK' : llm (build_knowledge_prompt ctx kbr) 600 (mkRat 1 5) = some (resp .knowledge) := hK
    have hcons' : llm (build_consistency_prompt_v2 (parse_root_cause (resp .rootCause))
        (parse_impact (resp .impact)) (parseEmpty parseActionsE) kOut)
        400 (mkRat 1 5) = some rawCons := hcons
    simp only []
    rw [_run_agent_null "Actions" _ llm parseActionsE 450 hf,
        _run_agent_ok "RootCause" _ llm parseRootCauseE 450 _ _ hR' hRne rfl,
        _run_agent_ok "Impact" _ llm parseImpactE 450 _ _ hI' hIne rfl,
        _run_agent_ok "Knowledge" _ llm parse_knowledge 600 _ _ hK' hKne hkb]
    dsimp only
    rw [build_consistency_prompt_v2E_ok _ _ _ _ hwf]
    simp only []
    rw [_run_agent_ok "Consistency" _ llm parseConsistencyE 400 _ _ hcons' hconsNE rfl]
    exact ⟨trivial, rfl, rfl, rfl, rfl, rfl, rfl, trivial⟩
  | knowledge =>
    obtain ⟨hR, hRne⟩ := hok .rootCause (by decide)
    obtain ⟨hI, hIne⟩ := hok .impact (by decide)
    obtain ⟨hA, hAne⟩ := hok .actions (by decide)
    have hf : llm (build_knowledge_prompt ctx kbr) 600 (mkRat 1 5) = none := hfail
    have hR' : llm (build_root_cause_prompt ctx) 450 (mkRat 1 5) = some (resp .rootCause) := hR
    have hI' : llm (build_impact_prompt ctx) 450 (mkRat 1 5) = some (resp .impact) := hI
    have hA' : llm (build_actions_prompt ctx) 450 (mkRat 1 5) = some (resp .actions) := hA
    have hcons' : llm (build_consistency_prompt_v2 (parse_root_cause (resp .rootCause))
        (parse_impact (resp .impact)) (parse_actions (resp .actions))
        (parseEmpty parse_knowledge)) 400 (mkRat 1 5) = some rawCons := hcons
    simp only []
    rw [_run_agent_null "Knowledge" _ llm parse_knowledge 600 hf,
        _run_agent_ok "RootCause" _ llm parseRootCauseE 450 _ _ hR' hRne rfl,
        _run_agent_ok "Impact" _ llm parseImpactE 450 _ _ hI' hIne rfl,
        _run_agent_ok "Actions" _ llm parseActionsE 450 _ _ hA' hAne rfl]
    dsimp only
    rw [build_consistency_prompt_v2E_ok _ _ _ _
      (show kbWellShaped (parseEmpty parse_knowledge) = true from rfl)]
    simp only []
    rw [_run_agent_ok "Consistency" _ llm parseConsistencyE 400 _ _ hcons' hconsNE rfl]
    exact ⟨trivial, rfl, rfl, rfl, rfl, rfl, rfl, trivial⟩

/-- Concrete shared context for exercising the parallel plan. -/
def ctxW : SharedContext :=
  build_shared_context "" "S" (mkRat 1 2) "HIGH" "t" [] [] []

/-- A completion function that returns null exactly on the Actions prompt
and the text "x" on every other prompt. -/
def llmW : LlmCallable := fun p _ _ =>
  if p = build_actions_prompt ctxW then none else some "x"

/-- A completion function that answers the Knowledge call (the only one
with a 600-token budget) with a cleanly-parsing reply whose
`primary_contact` is a list, returns null exactly on the Actions prompt,
and returns the text "x" on every other prompt. -/
def llmC : LlmCallable := fun p mt _ =>
  if mt = 600 then some "\x7b\"primary_contact\": [1]\x7d"
  else if p = build_actions_prompt ctxW then none
  else some "x"

/-- C7 counterexample to the unconditional claim: exactly one role's
completion is null (Actions; RootCause, Impact and Knowledge all succeed,
and Knowledge's reply parses cleanly), yet the faithful run raises
`AttributeError` instead of returning a result — the consistency prompt's
`kb.primary_contact.get('name', …)` runs outside any `try` on a decoded
list, so the exception propagates to `run_multi_agent_v2`'s caller and no
`MultiAgentResult` is produced. -/
theorem role_failure_crash_cex :
    llmC (build_actions_prompt ctxW) 450 (mkRat 1 5) = none ∧
    llmC (build_root_cause_prompt ctxW) 450 (mkRat 1 5) = some "x" ∧
    llmC (build_impact_prompt ctxW) 450 (mkRat 1 5) = some "x" ∧
    llmC (build_knowledge_prompt ctxW {}) 600 (mkRat 1 5) =
      some "\x7b\"primary_contact\": [1]\x7d" ∧
    parse_knowledge "\x7b\"primary_contact\": [1]\x7d" =
      .ok { primary_contact := .arr [.int 1] } ∧
    kbWellShaped { primary_contact := .arr [.int 1] } = false ∧
    run_multi_agent_v2E "" "S" (mkRat 1 2) "HIGH" "t" [] [] [] llmC {} =
      .error .attributeError :=
  ⟨rfl, rfl, rfl, rfl, rfl, rfl, rfl⟩

/-- C7 witness: concrete parallel run (severity HIGH, confidence 1/2) in
which only the Actions completion is null and the surviving knowledge
output is the well-shaped zero record — the faithful run returns `.ok`,
with one error entry and parallel mode, instantiating the isolation
theorem at the Actions role. -/
theorem role_failure_isolated_witness :
    (¬ ("HIGH" = "CRITICAL" ∧ mkRat 3 4 ≤ mkRat 1 2)) ∧
    parse_knowledge "x" = .ok {} ∧ kbWellShaped {} = true ∧
    run_multi_agent_v2E "" "S" (mkRat 1 2) "HIGH" "t" [] [] [] llmW {} =
      .ok (run_multi_agent_v2 "" "S" (mkRat 1 2) "HIGH" "t" [] [] [] llmW {}) ∧
    (run_multi_agent_v2 "" "S" (mkRat 1 2) "HIGH" "t" [] [] [] llmW {}).errors =
      ["actions: Empty response from LLM"] ∧
    (run_multi_agent_v2 "" "S" (mkRat 1 2) "HIGH" "t" [] [] [] llmW {}).mode_used =
      "parallel" := by
  have h := role_failure_isolated "" "S" (mkRat 1 2) "HIGH" "t" [] [] [] llmW {}
    (by decide) .actions (fun _ => "x") {} "x"
    (by rfl)
    (by intro r' hr'
        cases r' with
        | rootCause => exact ⟨rfl, by decide⟩
        | impact => exact ⟨rfl, by decide⟩
        | actions => exact absurd rfl hr'
        | knowledge => exact ⟨rfl, by decide⟩)
    (by rfl) rfl (by rfl) (by decide)
  exact ⟨by decide, by rfl, rfl, h.1, h.2.2.2.2.2.2.1, h.2.2.2.2.2.2.2⟩

/-! ## Claim C10 — error-entry prefixes depend on the execution mode -/

/-- C10: with every completion null, the parallel plan prefixes the four
role error entries with the snake_case agent keys (`root_cause`, `impact`,
`actions`, `knowledge`, in that order) while the staged plan prefixes them
with the display role names (`RootCause`, `Impact`, `Knowledge`, `Actions`
— note also the different position of Actions); the consistency entry is
`Consistency:` in both.  The two error lists differ, and every role's
snake key differs from its display name, so the same failing role yields
differently formatted entries in the two modes. -/
theorem error_prefix_depends_on_mode (log_text system : String)
    (confP confS : ℚ) (sevP issue_type : String) (contacts : List Contact)
    (solutions : List Solution) (timeline : List TimelineEvent)
    (llm : LlmCallable) (kbr : KBSearchResults)
    (hfailAll : ∀ p mt, llm p mt (mkRat 1 5) = none)
    (hpar : ¬ (sevP = "CRITICAL" ∧ mkRat 3 4 ≤ confP))
    (hseq : mkRat 3 4 ≤ confS) :
    (run_multi_agent_v2 log_text system confP sevP issue_type contacts
        solutions timeline llm kbr).errors =
      ["root_cause: Empty response from LLM",
       "impact: Empty response from LLM",
       "actions: Empty response from LLM",
       "knowledge: Empty response from LLM",
       "Consistency: Empty response from LLM"] ∧
    (run_multi_agent_v2 log_text system confS "CRITICAL" issue_type contacts
        solutions timeline llm kbr).errors =
      ["RootCause: Empty response from LLM",
       "Impact: Empty response from LLM",
       "Knowledge: Empty response from LLM",
       "Actions: Empty response from LLM",
       "Consistency: Empty response from LLM"] ∧
    (run_multi_agent_v2 log_text system confP sevP issue_type contacts
        solutions timeline llm kbr).errors ≠
      (run_multi_agent_v2 log_text system confS "CRITICAL" issue_type contacts
        solutions timeline llm kbr).errors ∧
    (run_multi_agent_v2 log_text system confP sevP issue_type contacts
        solutions timeline llm kbr).mode_used = "parallel" ∧
    (run_multi_agent_v2 log_text system confS "CRITICAL" issue_type contacts
        solutions timeline llm kbr).mode_used = "partial_sequential" ∧
    (∀ r : RoleName, snakeKey r ≠ displayRole r) := by
  have hP : (run_multi_agent_v2 log_text system confP sevP issue_type contacts
      solutions timeline llm kbr).errors =
      ["root_cause: Empty response from LLM",
       "impact: Empty response from LLM",
       "actions: Empty response from LLM",
       "knowledge: Empty response from LLM",
       "Consistency: Empty response from LLM"] := by
    rw [run_parallel_char _ _ _ _ _ _ _ _ _ _ hpar]
    simp only []
    rw [_run_agent_null _ _ llm parseRootCauseE 450 (hfailAll _ 450),
        _run_agent_null _ _ llm parseImpactE 450 (hfailAll _ 450),
        _run_agent_null _ _ llm parseActionsE 450 (hfailAll _ 450),
        _run_agent_null _ _ llm parse_knowledge 600 (hfailAll _ 600)]
    dsimp only
    rw [_run_agent_null _ _ llm parseConsistencyE 400 (hfailAll _ 400)]
    rfl
  have hS : (run_multi_agent_v2 log_text system confS "CRITICAL" issue_type
      contacts solutions timeline llm kbr).errors =
      ["RootCause: Empty response from LLM",
       "Impact: Empty response from LLM",
       "Knowledge: Empty response from LLM",
       "Actions: Empty response from LLM",
       "Consistency: Empty response from LLM"] := by
    rw [run_sequential_char _ _ _ _ _ _ _ _ _ _ ⟨rfl, hseq⟩]
    simp only []
    rw [_run_agent_null _ _ llm parseRootCauseE 450 (hfailAll _ 450),
        _run_agent_null _ _ llm parseImpactE 450 (hfailAll _ 450),
        _run_agent_null _ _ llm parse_knowledge 600 (hfailAll _ 600)]
    dsimp only
    rw [_run_agent_null _ _ llm parseActionsE 450 (hfailAll _ 450)]
    dsimp only
    rw [_run_agent_null _ _ llm parseConsistencyE 400 (hfailAll _ 400)]
    rfl
  refine ⟨hP, hS, ?_, ?_, ?_, ?_⟩
  · rw [hP, hS]; decide
  · rw [run_parallel_char _ _ _ _ _ _ _ _ _ _ hpar]
  · rw [run_sequential_char _ _ _ _ _ _ _ _ _ _ ⟨rfl, hseq⟩]
  · intro r; cases r <;> decide

/-- C10 witness: the two error lists, modes and per-role prefix
inequalities, instantiated at an always-null completion function with a
HIGH-severity parallel run and a CRITICAL (confidence 0.9) staged run. -/
theorem error_prefix_depends_on_mode_witness :
    (¬ ("HIGH" = "CRITICAL" ∧ mkRat 3 4 ≤ mkRat 1 2)) ∧
    mkRat 3 4 ≤ mkRat 9 10 ∧
    (run_multi_agent_v2 "" "S" (mkRat 1 2) "HIGH" "t" [] [] []
        (fun _ _ _ => none) {}).errors ≠
      (run_multi_agent_v2 "" "S" (mkRat 9 10) "CRITICAL" "t" [] [] []
        (fun _ _ _ => none) {}).errors ∧
    (run_multi_agent_v2 "" "S" (mkRat 1 2) "HIGH" "t" [] [] []
        (fun _ _ _ => none) {}).mode_used = "parallel" ∧
    (run_multi_agent_v2 "" "S" (mkRat 9 10) "CRITICAL" "t" [] [] []
        (fun _ _ _ => none) {}).mode_used = "partial_sequential" := by
  have h := error_prefix_depends_on_mode "" "S" (mkRat 1 2) (mkRat 9 10)
    "HIGH" "t" [] [] [] (fun _ _ _ => none) {} (fun _ _ => rfl)
    (by decide) (by decide)
  exact ⟨by decide, by decide, h.2.2.1, h.2.2.2.1, h.2.2.2.2.1⟩

end MultiAgent
